import Mathlib

/-!
Verification development for the manobela driver-monitoring backend.

Numbers: Python floats are modelled as exact rationals (ℚ); every arithmetic
operation appearing in the source (sums, products, divisions, comparisons,
absolute values) is exact in ℚ.  Python `int(x)` on a nonnegative value is
`⌊x⌋`.  Per-frame geometry (EAR / MAR / head-pose angles from landmarks) is
computed by pure helper functions outside the detector state machines; a
frame is therefore embedded as the outcome those helpers deliver to the
detector: landmarks absent, a computation error (IndexError /
ZeroDivisionError caught by the detector), or the computed value.
Fallible code is embedded with `Except`/`Option`.
-/

namespace Manobela

/-- `settings.target_fps` from `app/core/config.py` (default 15, used by all
frame-count conversions in the detectors). -/
def targetFps : ℕ := 15

/-- Python `int(x)` for the nonnegative rationals produced by
`seconds * target_fps` conversions. -/
def ratToNatTrunc (x : ℚ) : ℕ := (⌊x⌋).toNat

/-! ## ScalarSmoother

`eye_closure.py` and `yawn.py` import `ScalarSmoother` from
`app.services.smoother`, but `smoother.py` in the source tree defines only
the sequence `Smoother` class.  Modelled from the spec: section 4.1 gives the
scalar contract — on a present value adopt it if there is no prior state,
otherwise emit `alpha * new + (1 - alpha) * previous` and store it; on an
absent value increment the missing streak, re-emit the last smoothed value
while the streak is at most `max_missing`, and clear state and emit absent
once the streak exceeds it; `reset()` clears state and counters. -/

structure ScalarSmoother where
  alpha : ℚ
  maxMissing : ℕ
  lastValue : Option ℚ
  missingCount : ℕ
deriving Repr, DecidableEq

/-- Fresh scalar smoother (constructor state). -/
def ScalarSmoother.init (alpha : ℚ) (maxMissing : ℕ) : ScalarSmoother :=
  { alpha := alpha, maxMissing := maxMissing, lastValue := none, missingCount := 0 }

/-- Modelled from the spec: scalar exponential-moving-average update
(section 4.1); returns the emitted value and the new smoother state. -/
def ScalarSmoother.update (s : ScalarSmoother) :
    Option ℚ → Option ℚ × ScalarSmoother
  | some x =>
    match s.lastValue with
    | none => (some x, { s with lastValue := some x, missingCount := 0 })
    | some prev =>
      let sm := s.alpha * x + (1 - s.alpha) * prev
      (some sm, { s with lastValue := some sm, missingCount := 0 })
  | none =>
    let cnt := s.missingCount + 1
    if cnt ≤ s.maxMissing then
      (s.lastValue, { s with missingCount := cnt })
    else
      (none, { s with lastValue := none, missingCount := cnt })

/-- `ScalarSmoother.reset`: clears state and counters unconditionally. -/
def ScalarSmoother.reset (s : ScalarSmoother) : ScalarSmoother :=
  { s with lastValue := none, missingCount := 0 }

/-! ## Smoother (sequence variant, `app/services/smoother.py`)

`update` receives an optional numeric sequence.  On a present value the
missing counter is zeroed; with no prior state the new list is adopted
as-is; otherwise the source builds
`[alpha * new[i] + (1 - alpha) * last[i] for i in range(len(new))]`, which
indexes the stored list at every position of the new one — an input longer
than the stored list raises `IndexError` (embedded as `Except.error`), and a
shorter input is blended over its own indices only.  On an absent value the
missing counter is incremented; the last value is re-emitted while the
counter is at most `max_missing`, otherwise state is cleared and absent is
returned. -/

structure Smoother where
  alpha : ℚ
  maxMissing : ℕ
  lastValue : Option (List ℚ)
  missingCount : ℕ
deriving Repr, DecidableEq

/-- `Smoother.__init__`. -/
def Smoother.init (alpha : ℚ) (maxMissing : ℕ) : Smoother :=
  { alpha := alpha, maxMissing := maxMissing, lastValue := none, missingCount := 0 }

/-- `Smoother.update`; `Except.error ()` is the `IndexError` raised when the
new sequence is longer than the stored one. -/
def Smoother.update (s : Smoother) :
    Option (List ℚ) → Except Unit (Option (List ℚ) × Smoother)
  | some newList =>
    let s0 := { s with missingCount := 0 }
    match s0.lastValue with
    | none =>
      .ok (some newList, { s0 with lastValue := some newList })
    | some prev =>
      if newList.length ≤ prev.length then
        let smoothed := (List.range newList.length).map fun i =>
          s.alpha * newList.getD i 0 + (1 - s.alpha) * prev.getD i 0
        .ok (some smoothed, { s0 with lastValue := some smoothed })
      else
        .error ()
  | none =>
    let cnt := s.missingCount + 1
    if cnt ≤ s.maxMissing then
      .ok (s.lastValue, { s with missingCount := cnt })
    else
      .ok (none, { s with lastValue := none, missingCount := cnt })

/-- `Smoother.reset`. -/
def Smoother.reset (s : Smoother) : Smoother :=
  { s with lastValue := none, missingCount := 0 }

/-! ## EyeClosureMetric (`app/services/metrics/eye_closure.py`) -/

/-- Per-frame input to `EyeClosureMetric.update`, abstracting
`context.face_landmarks` and the `average_ear` computation: `missing` is a
frame with no landmarks, `failed` a frame whose EAR computation raised
`IndexError`/`ZeroDivisionError` (caught by the detector), and `value x` a
frame whose raw EAR is `x`. -/
inductive EarInput where
  | missing
  | failed
  | value (x : ℚ)
deriving Repr, DecidableEq

/-- `EyeClosureMetricOutput`. -/
structure EyeClosureMetricOutput where
  ear : Option ℚ
  eye_closed : Bool
  eye_closed_sustained : ℚ
  perclos : ℚ
  perclos_alert : Bool
deriving Repr, DecidableEq

/-- The `EyeClosureMetric` object: constructor-derived configuration fields
followed by mutable state. -/
structure EyeClosureMetric where
  ear_threshold_open : ℚ
  ear_threshold_close : ℚ
  perclos_threshold : ℚ
  min_eye_closed_duration_frames : ℕ
  window_size : ℕ
  eye_closed_duration_frames : ℕ
  eye_closed : Bool
  eye_history : List Bool
  ear_smoother : ScalarSmoother
deriving Repr, DecidableEq

/-- `EyeClosureMetric.__init__`: validation (fail fast) and field setup.
Note the source sets `ear_threshold_open = ear_threshold` and
`ear_threshold_close = ear_threshold * hysteresis_ratio`. -/
def EyeClosureMetric.init (ear_threshold hysteresisRatio perclos_threshold
    min_eye_closed_duration_sec window_sec smoother_alpha : ℚ) :
    Except String EyeClosureMetric :=
  if ear_threshold < 0 ∨ ear_threshold > 1 then
    .error "ear_threshold must be between 0 and 1."
  else if hysteresisRatio < 0 ∨ hysteresisRatio > 1 then
    .error "hysteresis_ratio must be between 0 and 1."
  else if perclos_threshold < 0 ∨ perclos_threshold > 1 then
    .error "perclos_threshold must be between 0 and 1."
  else if min_eye_closed_duration_sec ≤ 0 then
    .error "min_eye_closed_duration_sec must be positive."
  else if window_sec ≤ 0 then
    .error "window_sec must be positive."
  else
    .ok
      { ear_threshold_open := ear_threshold
        ear_threshold_close := ear_threshold * hysteresisRatio
        perclos_threshold := perclos_threshold
        min_eye_closed_duration_frames :=
          max 1 (ratToNatTrunc (min_eye_closed_duration_sec * targetFps))
        window_size := max 1 (ratToNatTrunc (window_sec * targetFps))
        eye_closed_duration_frames := 0
        eye_closed := false
        eye_history := []
        ear_smoother := ScalarSmoother.init smoother_alpha 3 }

/-- `deque(maxlen=window_size).append`: newest at the tail, oldest dropped
once the window size is exceeded. -/
def pushBounded (windowSize : ℕ) (h : List Bool) (b : Bool) : List Bool :=
  let h2 := h ++ [b]
  if windowSize < h2.length then h2.drop (h2.length - windowSize) else h2

/-- `EyeClosureMetric._perclos`. -/
def EyeClosureMetric.perclos (m : EyeClosureMetric) : ℚ :=
  if m.eye_history.isEmpty then 0
  else ((m.eye_history.filter id).length : ℚ) / (m.eye_history.length : ℚ)

/-- `EyeClosureMetric._calc_sustained`. -/
def EyeClosureMetric.calcSustained (m : EyeClosureMetric) : ℚ :=
  min ((m.eye_closed_duration_frames : ℚ) /
    (m.min_eye_closed_duration_frames : ℚ)) 1

/-- Output used by every early-return branch of `update` (missing landmarks,
failed EAR computation, absent smoothed value): null EAR plus the held
state. -/
def EyeClosureMetric.heldOutput (m : EyeClosureMetric) : EyeClosureMetricOutput :=
  { ear := none
    eye_closed := m.eye_closed
    eye_closed_sustained := m.calcSustained
    perclos := m.perclos
    perclos_alert := decide (m.perclos_threshold ≤ m.perclos) }

/-- `EyeClosureMetric.update`. -/
def EyeClosureMetric.update (m : EyeClosureMetric) :
    EarInput → EyeClosureMetricOutput × EyeClosureMetric
  | .missing => (m.heldOutput, m)
  | .failed => (m.heldOutput, m)
  | .value x =>
    let (sm, smoother2) := m.ear_smoother.update (some x)
    let m1 := { m with ear_smoother := smoother2 }
    match sm with
    | none => (m1.heldOutput, m1)
    | some earValue =>
      let m2 :=
        if earValue ≤ m1.ear_threshold_close then
          { m1 with eye_closed_duration_frames := m1.eye_closed_duration_frames + 1 }
        else if m1.ear_threshold_open ≤ earValue then
          { m1 with eye_closed_duration_frames := 0, eye_closed := false }
        else m1
      let m3 :=
        if m2.min_eye_closed_duration_frames ≤ m2.eye_closed_duration_frames then
          { m2 with eye_closed := true }
        else m2
      let m4 := { m3 with
        eye_history :=
          pushBounded m3.window_size m3.eye_history
            (decide (earValue ≤ m3.ear_threshold_close)) }
      ({ ear := some earValue
         eye_closed := m4.eye_closed
         eye_closed_sustained := m4.calcSustained
         perclos := m4.perclos
         perclos_alert := decide (m4.perclos_threshold ≤ m4.perclos) },
       m4)

/-- `EyeClosureMetric.reset`: the source resets only the EAR smoother and the
PERCLOS history; `_eye_closed_duration_frames` and `_eye_closed` are left as
they were. -/
def EyeClosureMetric.reset (m : EyeClosureMetric) : EyeClosureMetric :=
  { m with ear_smoother := m.ear_smoother.reset, eye_history := [] }

/-! ## YawnMetric (`app/services/metrics/yawn.py`) -/

/-- Per-frame input to `YawnMetric.update`: `missing` is a frame with no
landmarks, `failed` a frame whose MAR computation raised (caught), and
`computed raw` a frame for which `compute_mar` returned `raw`
(`compute_mar` itself returns `None` for degenerate geometry, which the MAR
smoother then treats as a missing value). -/
inductive MarInput where
  | missing
  | failed
  | computed (raw : Option ℚ)
deriving Repr, DecidableEq

/-- `YawnMetricOutput`. -/
structure YawnMetricOutput where
  mar : Option ℚ
  yawning : Bool
  yawn_sustained : ℚ
  yawn_count : ℕ
deriving Repr, DecidableEq

/-- The `YawnMetric` object (`yawn.py`): configuration plus mutable state. -/
structure YawnMetric where
  mar_threshold_open : ℚ
  mar_threshold_close : ℚ
  min_yawn_duration_frames : ℕ
  frames_processed : ℕ
  yawn_duration_frames : ℕ
  yawn_active : Bool
  yawn_events : ℕ
  mar_smoother : ScalarSmoother
deriving Repr, DecidableEq

/-- `YawnMetric.__init__` (`yawn.py`): validation and field setup;
`mar_threshold_open = mar_threshold`,
`mar_threshold_close = mar_threshold * hysteresis_ratio`. -/
def YawnMetric.init (mar_threshold hysteresisRatio min_yawn_duration_sec
    smoother_alpha : ℚ) : Except String YawnMetric :=
  if mar_threshold < 0 ∨ mar_threshold > 1 then
    .error "mar_threshold must be between 0 and 1."
  else if hysteresisRatio < 0 ∨ hysteresisRatio > 1 then
    .error "hysteresis_ratio must be between 0 and 1."
  else if min_yawn_duration_sec ≤ 0 then
    .error "min_yawn_duration_sec must be positive."
  else
    .ok
      { mar_threshold_open := mar_threshold
        mar_threshold_close := mar_threshold * hysteresisRatio
        min_yawn_duration_frames :=
          max 1 (ratToNatTrunc (min_yawn_duration_sec * targetFps))
        frames_processed := 0
        yawn_duration_frames := 0
        yawn_active := false
        yawn_events := 0
        mar_smoother := ScalarSmoother.init smoother_alpha 3 }

/-- `YawnMetric._calc_sustained`. -/
def YawnMetric.calcSustained (m : YawnMetric) : ℚ :=
  min ((m.yawn_duration_frames : ℚ) / (m.min_yawn_duration_frames : ℚ)) 1

/-- Output of the early-return branches of `YawnMetric.update`: null MAR and
held state. -/
def YawnMetric.heldOutput (m : YawnMetric) : YawnMetricOutput :=
  { mar := none
    yawning := m.yawn_active
    yawn_sustained := m.calcSustained
    yawn_count := m.yawn_events }

/-- `YawnMetric.update` (`yawn.py`).  `_frames_processed` is incremented on
every call; on a present raw MAR (possibly `None` from `compute_mar`) the
smoother runs and a `None` smoothed value returns early; otherwise MAR at or
above the open threshold increments the duration counter, MAR at or below
the close threshold counts one yawn event if a yawn was active and returns
to the closed state, and the active flag latches once the counter reaches
the minimum duration. -/
def YawnMetric.update (m : YawnMetric) :
    MarInput → YawnMetricOutput × YawnMetric
  | .missing =>
    let m1 := { m with frames_processed := m.frames_processed + 1 }
    (m1.heldOutput, m1)
  | .failed =>
    let m1 := { m with frames_processed := m.frames_processed + 1 }
    (m1.heldOutput, m1)
  | .computed raw =>
    let m1 := { m with frames_processed := m.frames_processed + 1 }
    let (sm, smoother2) := m1.mar_smoother.update raw
    let m2 := { m1 with mar_smoother := smoother2 }
    match sm with
    | none => (m2.heldOutput, m2)
    | some marValue =>
      let m3 :=
        if m2.mar_threshold_open ≤ marValue then
          { m2 with yawn_duration_frames := m2.yawn_duration_frames + 1 }
        else if marValue ≤ m2.mar_threshold_close then
          { m2 with
            yawn_events := if m2.yawn_active then m2.yawn_events + 1 else m2.yawn_events
            yawn_duration_frames := 0
            yawn_active := false }
        else m2
      let m4 :=
        if m3.min_yawn_duration_frames ≤ m3.yawn_duration_frames then
          { m3 with yawn_active := true }
        else m3
      ({ mar := some marValue
         yawning := m4.yawn_active
         yawn_sustained := m4.calcSustained
         yawn_count := m4.yawn_events },
       m4)

/-- `YawnMetric.reset` (`yawn.py`): clears the duration counter, active flag,
event count and smoother (`_frames_processed` is not touched). -/
def YawnMetric.reset (m : YawnMetric) : YawnMetric :=
  { m with
    yawn_duration_frames := 0
    yawn_active := false
    yawn_events := 0
    mar_smoother := m.mar_smoother.reset }

/-! ## HeadPoseMetric (`app/services/metrics/head_pose.py`) -/

/-- Per-frame input to `HeadPoseMetric.update`: `missing` is a frame with no
landmarks, `failed` a frame whose `compute_head_pose_angles_2d` raised
(caught), and `angles` a frame with computed raw yaw/pitch/roll degrees. -/
inductive HeadPoseInput where
  | missing
  | failed
  | angles (yaw pitch roll : ℚ)
deriving Repr, DecidableEq

/-- `HeadPoseMetricOutput`. -/
structure HeadPoseMetricOutput where
  yaw : Option ℚ
  pitch : Option ℚ
  roll : Option ℚ
  yaw_alert : Bool
  pitch_alert : Bool
  roll_alert : Bool
  yaw_rel : Option ℚ
  pitch_rel : Option ℚ
  roll_rel : Option ℚ
  calibrating : Bool
  head_pose_sustained : ℚ
deriving Repr, DecidableEq

/-- The `HeadPoseMetric` object: configuration plus mutable state.  The three
Python baseline fields `_baseline_yaw/_baseline_pitch/_baseline_roll` are
always assigned and cleared together and are folded into one optional
triple. -/
structure HeadPoseMetric where
  yaw_threshold : ℚ
  pitch_threshold : ℚ
  roll_threshold : ℚ
  min_sustained_frames : ℕ
  calibration_frames : ℕ
  missing_reset_frames : ℕ
  yaw_counter : ℕ
  pitch_counter : ℕ
  roll_counter : ℕ
  yaw_state : Bool
  pitch_state : Bool
  roll_state : Bool
  baseline : Option (ℚ × ℚ × ℚ)
  baseline_sum_yaw : ℚ
  baseline_sum_pitch : ℚ
  baseline_sum_roll : ℚ
  baseline_count : ℕ
  missing_frames : ℕ
deriving Repr, DecidableEq

/-- `HeadPoseMetric.__init__`: validation and field setup (frame conversions
use `target_fps = 15`). -/
def HeadPoseMetric.init (yaw_threshold pitch_threshold roll_threshold
    min_sustained_sec calibration_sec missing_reset_sec : ℚ) :
    Except String HeadPoseMetric :=
  if yaw_threshold < 0 ∨ yaw_threshold > 180 then
    .error "yaw_threshold must be between 0 and 180."
  else if pitch_threshold < 0 ∨ pitch_threshold > 180 then
    .error "pitch_threshold must be between 0 and 180."
  else if roll_threshold < 0 ∨ roll_threshold > 180 then
    .error "roll_threshold must be between 0 and 180."
  else if min_sustained_sec ≤ 0 then
    .error "min_sustained_sec must be positive."
  else if calibration_sec ≤ 0 then
    .error "calibration_sec must be positive."
  else if missing_reset_sec ≤ 0 then
    .error "missing_reset_sec must be positive."
  else
    .ok
      { yaw_threshold := yaw_threshold
        pitch_threshold := pitch_threshold
        roll_threshold := roll_threshold
        min_sustained_frames := max 1 (ratToNatTrunc (min_sustained_sec * targetFps))
        calibration_frames := max 1 (ratToNatTrunc (calibration_sec * targetFps))
        missing_reset_frames := max 1 (ratToNatTrunc (missing_reset_sec * targetFps))
        yaw_counter := 0
        pitch_counter := 0
        roll_counter := 0
        yaw_state := false
        pitch_state := false
        roll_state := false
        baseline := none
        baseline_sum_yaw := 0
        baseline_sum_pitch := 0
        baseline_sum_roll := 0
        baseline_count := 0
        missing_frames := 0 }

/-- `HeadPoseMetric._reset_alert_state`. -/
def HeadPoseMetric.resetAlertState (m : HeadPoseMetric) : HeadPoseMetric :=
  { m with
    yaw_counter := 0
    pitch_counter := 0
    roll_counter := 0
    yaw_state := false
    pitch_state := false
    roll_state := false }

/-- `HeadPoseMetric.reset_baseline`. -/
def HeadPoseMetric.reset_baseline (m : HeadPoseMetric) : HeadPoseMetric :=
  { m.resetAlertState with
    baseline := none
    baseline_sum_yaw := 0
    baseline_sum_pitch := 0
    baseline_sum_roll := 0
    baseline_count := 0
    missing_frames := 0 }

/-- `HeadPoseMetric.reset`. -/
def HeadPoseMetric.reset (m : HeadPoseMetric) : HeadPoseMetric :=
  m.reset_baseline

/-- `HeadPoseMetric._calc_sustained`. -/
def HeadPoseMetric.calcSustained (m : HeadPoseMetric) : ℚ :=
  min (((max (max m.yaw_counter m.pitch_counter) m.roll_counter : ℕ) : ℚ) /
    (m.min_sustained_frames : ℚ)) 1

/-- `HeadPoseMetric._build_output`. -/
def HeadPoseMetric.buildOutput (m : HeadPoseMetric)
    (yaw pitch roll yawRel pitchRel rollRel : Option ℚ) (calibrating : Bool) :
    HeadPoseMetricOutput :=
  { yaw := yaw
    pitch := pitch
    roll := roll
    yaw_alert := m.yaw_state
    pitch_alert := m.pitch_state
    roll_alert := m.roll_state
    yaw_rel := yawRel
    pitch_rel := pitchRel
    roll_rel := rollRel
    calibrating := calibrating
    head_pose_sustained := m.calcSustained }

/-- Post-calibration tail of `HeadPoseMetric.update`: relative angles,
per-axis deviation tests, debounce counters, latch-on-sustained, immediate
clear when an axis returns under threshold. -/
def HeadPoseMetric.afterCalibration (m : HeadPoseMetric)
    (yaw pitch roll bYaw bPitch bRoll : ℚ) :
    HeadPoseMetricOutput × HeadPoseMetric :=
  let yawRel := yaw - bYaw
  let pitchRel := pitch - bPitch
  let rollRel := roll - bRoll
  let yawDev := m.yaw_threshold < |yawRel|
  let pitchDev := m.pitch_threshold < |pitchRel|
  let rollDev := m.roll_threshold < |rollRel|
  let m1 := { m with
    yaw_counter := if yawDev then m.yaw_counter + 1 else 0
    pitch_counter := if pitchDev then m.pitch_counter + 1 else 0
    roll_counter := if rollDev then m.roll_counter + 1 else 0 }
  let m2 := { m1 with
    yaw_state :=
      if m1.min_sustained_frames ≤ m1.yaw_counter then true else m1.yaw_state
    pitch_state :=
      if m1.min_sustained_frames ≤ m1.pitch_counter then true else m1.pitch_state
    roll_state :=
      if m1.min_sustained_frames ≤ m1.roll_counter then true else m1.roll_state }
  let m3 := { m2 with
    yaw_state := if ¬yawDev then false else m2.yaw_state
    pitch_state := if ¬pitchDev then false else m2.pitch_state
    roll_state := if ¬rollDev then false else m2.roll_state }
  (m3.buildOutput (some yaw) (some pitch) (some roll)
    (some yawRel) (some pitchRel) (some rollRel) false, m3)

/-- `HeadPoseMetric.update`. -/
def HeadPoseMetric.update (m : HeadPoseMetric) :
    HeadPoseInput → HeadPoseMetricOutput × HeadPoseMetric
  | .missing =>
    let m1 := { m with missing_frames := m.missing_frames + 1 }
    let m2 :=
      if m1.missing_reset_frames ≤ m1.missing_frames then m1.reset_baseline else m1
    (m2.buildOutput none none none none none none (m2.baseline = none), m2)
  | .failed =>
    let m1 := { m with missing_frames := 0 }
    (m1.buildOutput none none none none none none (m1.baseline = none), m1)
  | .angles yaw pitch roll =>
    let m1 := { m with missing_frames := 0 }
    match m1.baseline with
    | none =>
      let mc := { m1 with
        baseline_sum_yaw := m1.baseline_sum_yaw + yaw
        baseline_sum_pitch := m1.baseline_sum_pitch + pitch
        baseline_sum_roll := m1.baseline_sum_roll + roll
        baseline_count := m1.baseline_count + 1 }
      if mc.baseline_count < mc.calibration_frames then
        let mr := mc.resetAlertState
        (mr.buildOutput (some yaw) (some pitch) (some roll) none none none true, mr)
      else
        let bYaw := mc.baseline_sum_yaw / (mc.baseline_count : ℚ)
        let bPitch := mc.baseline_sum_pitch / (mc.baseline_count : ℚ)
        let bRoll := mc.baseline_sum_roll / (mc.baseline_count : ℚ)
        let mb := { mc with baseline := some (bYaw, bPitch, bRoll) }
        mb.afterCalibration yaw pitch roll bYaw bPitch bRoll
    | some (bYaw, bPitch, bRoll) =>
      m1.afterCalibration yaw pitch roll bYaw bPitch bRoll

/-! ## Metric values and the generic metric-record reduction

`MValue` models the Python values stored in per-frame metric records:
`None`, `bool`, `int`, `float`, `list`, and nested `dict` (a record is an
association list of string keys; the `isinstance` distinctions of the source
— with `bool` excluded from the numeric cases — map to the constructors).
There are two copies of `_aggregate_metrics_object` in the source:
`video_upload_processor.py` (the one invoked by `process_uploaded_video`,
with no integer rule) and `video_aggregation.py` (with an `_is_int` /
maximum rule between the alert rule and the numeric-mean rule).  Both are
embedded.  The recursion into nested records is bounded by an explicit fuel
parameter; fuel is consumed only when the all-values-are-records rule
recurses, so any fuel of at least one step gives the source behaviour on
records whose key is settled by an earlier rule, and fuel exceeding the
nesting depth gives the source behaviour everywhere. -/

inductive MValue where
  | vNull
  | vBool (b : Bool)
  | vInt (n : ℤ)
  | vFloat (q : ℚ)
  | vArr (items : List MValue)
  | vObj (fields : List (String × MValue))
deriving Repr

/-- A per-frame metric record (Python `dict[str, Any]`). -/
abbrev MRecord := List (String × MValue)

/-- Python `key.endswith("_alert")`: a suffix test on the key's character
list (`String.endsWith` itself is not used because its byte-level loop does
not reduce; this definition has the same semantics). -/
def endsWithAlertSuffix (key : String) : Bool :=
  key.data.reverse.take "_alert".data.length == "_alert".data.reverse

/-- Python `value is None`. -/
def MValue.isNull : MValue → Bool
  | .vNull => true
  | _ => false

/-- `_is_int`: `isinstance(value, int) and not isinstance(value, bool)`. -/
def isInt : MValue → Bool
  | .vInt _ => true
  | _ => false

/-- `_is_numeric`: `isinstance(value, (int, float)) and not isinstance(value, bool)`. -/
def isNumeric : MValue → Bool
  | .vInt _ => true
  | .vFloat _ => true
  | _ => false

/-- `isinstance(value, bool)`. -/
def isBoolV : MValue → Bool
  | .vBool _ => true
  | _ => false

/-- `isinstance(value, list)`. -/
def isListV : MValue → Bool
  | .vArr _ => true
  | _ => false

/-- `isinstance(value, dict)`. -/
def isObjV : MValue → Bool
  | .vObj _ => true
  | _ => false

/-- `_is_numeric_array`: a list all of whose items are numeric. -/
def isNumericArray : MValue → Bool
  | .vArr items => items.all isNumeric
  | _ => false

/-- Numeric value of a Python int or float (`float(value)`; 0 is never used
on the reduction paths, which guard with `_is_numeric`). -/
def MValue.toQ : MValue → ℚ
  | .vInt n => (n : ℚ)
  | .vFloat q => q
  | _ => 0

/-- The boolean payloads of the values that are `bool` instances. -/
def boolValues (values : List MValue) : List Bool :=
  values.filterMap fun v =>
    match v with
    | .vBool b => some b
    | _ => none

/-- The integer payloads of the values that pass `_is_int`. -/
def intValues (values : List MValue) : List ℤ :=
  values.filterMap fun v =>
    match v with
    | .vInt n => some n
    | _ => none

/-- The item lists of the values that are `list` instances. -/
def arrValues (values : List MValue) : List (List MValue) :=
  values.filterMap fun v =>
    match v with
    | .vArr items => some items
    | _ => none

/-- The field lists of the values that are `dict` instances. -/
def objValues (values : List MValue) : List MRecord :=
  values.filterMap fun v =>
    match v with
    | .vObj fields => some fields
    | _ => none

/-- `_aggregate_boolean`: `True` if any value is true, else the last value
(`False` for an empty list). -/
def aggregateBoolean (values : List Bool) : Bool :=
  if values.any id then true else values.getLastD false

/-- Python `max` over a nonempty list of ints (head as the running value). -/
def intListMax : List ℤ → ℤ
  | [] => 0
  | n :: rest => rest.foldl max n

/-- Arithmetic mean `sum(values) / len(values)` of numeric values. -/
def numericMean (values : List MValue) : ℚ :=
  ((values.map MValue.toQ).sum) / (values.length : ℚ)

/-- `_aggregate_numeric_array`: element-wise mean over the arrays matching
the first array's length; arrays of any other length are skipped; `None`
when no array matches (unreachable from the guarded call sites, where the
nonempty first array matches itself). -/
def aggregateNumericArray (arrays : List (List MValue)) : Option (List ℚ) :=
  match arrays with
  | [] => none
  | first :: _ =>
    let length := first.length
    let matched := arrays.filter fun arr => arr.length = length
    if matched.length = 0 then none
    else
      some <| (List.range length).map fun i =>
        (matched.foldl (fun acc arr => acc + (arr.getD i .vNull).toQ) 0) /
          (matched.length : ℚ)

/-- The union of the keys of all records, in first-appearance order (the
source uses an unordered `set`; the result record is read through `lookup`,
for which any duplicate-free order is equivalent). -/
def allKeys (objects : List MRecord) : List String :=
  ((objects.map fun o => o.map Prod.fst).flatten).dedup

/-- `values = [obj[key] for obj in objects if key in obj and obj[key] is not None]`. -/
def presentValues (objects : List MRecord) (key : String) : List MValue :=
  objects.filterMap fun o =>
    match o.lookup key with
    | some v => if v.isNull then none else some v
    | none => none

/-- Last element of the (nonempty at all call sites) value list:
`values[-1]`. -/
def lastValue (values : List MValue) : MValue :=
  values.getLastD .vNull

/-- Per-key rule chain of `video_upload_processor._aggregate_metrics_object`:
alert suffix, all-numeric mean, all-boolean OR, numeric arrays, nested
records (via `recur`), last value. -/
def reduceKeyUpload (recur : List MRecord → MRecord) (key : String)
    (values : List MValue) : MValue :=
  if endsWithAlertSuffix key then
    let bools := boolValues values
    if bools.isEmpty then lastValue values else .vBool (aggregateBoolean bools)
  else if values.all isNumeric then
    .vFloat (numericMean values)
  else if values.all isBoolV then
    .vBool (aggregateBoolean (boolValues values))
  else if values.all isNumericArray then
    match aggregateNumericArray (arrValues values) with
    | some l => .vArr (l.map MValue.vFloat)
    | none => .vNull
  else if values.all isObjV then
    .vObj (recur (objValues values))
  else
    lastValue values

/-- Per-key rule chain of `video_aggregation._aggregate_metrics_object`:
identical to the upload-processor chain except for the all-ints maximum
rule inserted between the alert rule and the numeric-mean rule. -/
def reduceKeyAgg (recur : List MRecord → MRecord) (key : String)
    (values : List MValue) : MValue :=
  if endsWithAlertSuffix key then
    let bools := boolValues values
    if bools.isEmpty then lastValue values else .vBool (aggregateBoolean bools)
  else if values.all isInt then
    .vInt (intListMax (intValues values))
  else if values.all isNumeric then
    .vFloat (numericMean values)
  else if values.all isBoolV then
    .vBool (aggregateBoolean (boolValues values))
  else if values.all isNumericArray then
    match aggregateNumericArray (arrValues values) with
    | some l => .vArr (l.map MValue.vFloat)
    | none => .vNull
  else if values.all isObjV then
    .vObj (recur (objValues values))
  else
    lastValue values

/-- Key loop shared by both reductions: for every key of the union, skip it
if no non-null value is present, otherwise store the reduced value. -/
def aggregateLoop (reduceKey : String → List MValue → MValue)
    (objects : List MRecord) : MRecord :=
  (allKeys objects).filterMap fun key =>
    let values := presentValues objects key
    if values.isEmpty then none else some (key, reduceKey key values)

/-- `video_upload_processor._aggregate_metrics_object`, fuel-bounded. -/
def aggregateMetricsObjectUploadF : ℕ → List MRecord → MRecord
  | 0, _ => []
  | fuel + 1, objects =>
    aggregateLoop (reduceKeyUpload (aggregateMetricsObjectUploadF fuel)) objects

/-- `video_aggregation._aggregate_metrics_object`, fuel-bounded. -/
def aggregateMetricsObjectAggF : ℕ → List MRecord → MRecord
  | 0, _ => []
  | fuel + 1, objects =>
    aggregateLoop (reduceKeyAgg (aggregateMetricsObjectAggF fuel)) objects

/-! ## FrameContext and the metric orchestrator
(`app/services/metrics/metric_manager.py`)

`frame_context.py` is imported throughout the source but absent from the
tree.  Modelled from the spec: the per-frame input bundle is
`(landmarks: Landmark set | absent, detections: list of Detection)` with a
detection being `(bbox: 4 floats, confidence: float, class_id: int)`. -/

/-- Modelled from the spec: a `Detection` record. -/
structure Detection where
  bbox : ℚ × ℚ × ℚ × ℚ
  conf : ℚ
  class_id : ℤ
deriving Repr, DecidableEq

/-- Modelled from the spec: the `FrameContext` per-frame input bundle. -/
structure FrameContext where
  face_landmarks : Option (List (ℚ × ℚ))
  object_detections : List Detection
deriving Repr

/-- Outcome of one detector's `update` call inside the orchestrator loop:
either the call raised an exception (caught and logged by the manager) or it
returned a record (possibly empty or, in the source, `None` — both are
skipped by the `if res:` guard, and an empty record merges as a no-op, so
`returns []` covers the `None` return as well). -/
inductive DetOutcome where
  | raises
  | returns (r : MRecord)

/-- A detector, as the orchestrator sees it: a function of the frame
context. -/
abbrev Detector := FrameContext → DetOutcome

/-- Python `dict` assignment `d[k] = v` on an association-list record:
replace the value at an existing key, else append the pair. -/
def dictSet (d : MRecord) (k : String) (v : MValue) : MRecord :=
  if (d.lookup k).isSome then
    d.map fun kv => if kv.1 = k then (k, v) else kv
  else d ++ [(k, v)]

/-- Python `results.update(res)`: assign every pair of `res` in order. -/
def dictUpdate (d res : MRecord) : MRecord :=
  res.foldl (fun acc kv => dictSet acc kv.1 kv.2) d

/-- `MetricManager.update`: run every detector in order; a raising detector
is skipped; a returned record merges into the results via `dict.update`
unless it is falsy. -/
def MetricManager.update (detectors : List Detector) (ctx : FrameContext) :
    MRecord :=
  detectors.foldl
    (fun results d =>
      match d ctx with
      | .raises => results
      | .returns r => if r.isEmpty then results else dictUpdate results r)
    []

/-- The outputs of the detectors whose `update` did not raise, in order. -/
def nonRaisingOutputs (detectors : List Detector) (ctx : FrameContext) :
    List MRecord :=
  detectors.filterMap fun d =>
    match d ctx with
    | .raises => none
    | .returns r => some r

/-- The merged union of a list of records, later records overriding earlier
ones key-wise (the spec's shallow union of per-detector maps). -/
def mergedUnion (records : List MRecord) : MRecord :=
  records.foldl dictUpdate []

/-! ## Session processing loop state
(`app/services/video_processor.py` around the recalibration consumption,
with `app/services/connection_manager.py` supplying the request flag)

`MetricManager` registers one `EyeClosureMetric`, one `HeadPoseMetric`, one
`YawnMetric` (the `yawn_detector.py` variant) and one `GazeMetric`.
`GazeMetric` keeps no per-frame state (its `reset` is a no-op), so the
manager state is the remaining three detector states. -/

/-- Mutable state of the `yawn_detector.py` `YawnMetric` object
(`_open_counter`, `_yawn_active` and its sequence `Smoother`). -/
structure YawnDetectorState where
  open_counter : ℕ
  yawn_active : Bool
  smoother : Smoother
deriving Repr, DecidableEq

/-- Per-session detector state owned by one `MetricManager` instance. -/
structure MetricManagerState where
  eye_closure : EyeClosureMetric
  head_pose : HeadPoseMetric
  yawn : YawnDetectorState
deriving Repr, DecidableEq

/-- Modelled from the spec: `MetricManager.reset_head_pose_baseline` is
called by the session loop (`video_processor.py`) on a consumed
recalibration request but is absent from `metric_manager.py`; per the spec
(`recalibrate-requested`: clear only the Head Pose baseline) it forwards to
`HeadPoseMetric.reset_baseline` and touches nothing else. -/
def MetricManagerState.reset_head_pose_baseline (m : MetricManagerState) :
    MetricManagerState :=
  { m with head_pose := m.head_pose.reset_baseline }

/-- The session-loop state relevant to recalibration handling: the metric
manager, the loop's landmark sequence smoother, and the client's entry in
`ConnectionManager.head_pose_recalibrate_requests`. -/
structure SessionProcessingState where
  manager : MetricManagerState
  smoother : Smoother
  recalibrate_requested : Bool
deriving Repr, DecidableEq

/-- The recalibration step at the top of the processing loop:
`if connection_manager.consume_head_pose_recalibration(client_id):
metric_manager.reset_head_pose_baseline()` — consuming removes the request
and, when one was queued, only the head-pose baseline is cleared. -/
def consumeRecalibrationStep (s : SessionProcessingState) :
    SessionProcessingState :=
  if s.recalibrate_requested then
    { manager := s.manager.reset_head_pose_baseline
      smoother := s.smoother
      recalibrate_requested := false }
  else s

/-! ## Batch upload processing (`app/services/video_upload_processor.py`)

`process_uploaded_video` is embedded at the level of its duration-limit
control flow.  Container metadata supplies `source_fps` and
`source_frame_count` (each `cv2` property, 0.0 when absent); each decoded
frame is abstracted to the timestamp the source derives for it (the
`CAP_PROP_POS_MSEC` / frame-index / fallback chain happens inside `cv2`)
plus a flag saying whether per-frame processing (landmark detection,
metrics, bucketing) raises a generic exception.  The `try` surrounding the
decode loop re-raises `OverflowError` (`Except.error ()`) and swallows any
other exception, after which the partial result is still assembled; the
run's observable summary is abstracted to
`(last_timestamp_sec, frame_number)`. -/

/-- One decoded frame: its derived timestamp and whether its processing
raises a generic (non-overflow) exception. -/
structure DecodedFrame where
  timestamp_sec : ℚ
  proc_fails : Bool
deriving Repr, DecidableEq

/-- Container-level inputs of `process_uploaded_video`. -/
structure VideoSource where
  source_fps : ℚ
  source_frame_count : ℚ
  frames : List DecodedFrame
deriving Repr, DecidableEq

/-- The decode loop: update the monotone `last_timestamp_sec`, raise the
duration `OverflowError` when the (truthy) limit is exceeded, skip frames
arriving faster than the target interval, stop on a per-frame processing
exception (swallowed by the surrounding handler, partial result kept),
otherwise advance the pacing clock and the processed-frame counter. -/
def processFramesLoop (maxDurationSec targetInterval : ℚ) :
    ℚ → ℚ → ℕ → List DecodedFrame → Except Unit (ℚ × ℕ)
  | lastTs, _, frameNumber, [] => .ok (lastTs, frameNumber)
  | lastTs, nextTargetTime, frameNumber, f :: rest =>
    let lastTs2 := max lastTs f.timestamp_sec
    if maxDurationSec ≠ 0 ∧ maxDurationSec < lastTs2 then
      .error ()
    else if f.timestamp_sec + 1 / 1000000 < nextTargetTime then
      processFramesLoop maxDurationSec targetInterval lastTs2 nextTargetTime
        frameNumber rest
    else if f.proc_fails then
      .ok (lastTs2, frameNumber + 1)
    else
      processFramesLoop maxDurationSec targetInterval lastTs2
        (nextTargetTime + targetInterval) (frameNumber + 1) rest

/-- `process_uploaded_video`: the up-front metadata duration check
(`frame_count / fps` when both are positive, compared against the limit when
truthy) followed by the decode loop;
`target_interval = 1.0 / max(1, target_fps)`. -/
def process_uploaded_video (src : VideoSource) (target_fps : ℤ)
    (max_duration_sec : ℚ) : Except Unit (ℚ × ℕ) :=
  let durationSec :=
    if src.source_frame_count > 0 ∧ src.source_fps > 0 then
      src.source_frame_count / src.source_fps
    else 0
  if durationSec ≠ 0 ∧ max_duration_sec < durationSec then
    .error ()
  else
    let targetInterval : ℚ := 1 / ((max 1 target_fps : ℤ) : ℚ)
    processFramesLoop max_duration_sec targetInterval 0 0 0 src.frames

/-! ## Run helpers and concrete instances used by the theorems -/

/-- Whether a head-pose frame carries valid landmarks (computable angles). -/
def HeadPoseInput.isAngles : HeadPoseInput → Bool
  | .angles _ _ _ => true
  | _ => false

/-- Feed a sequence of frames to `HeadPoseMetric.update`, collecting the
outputs in order together with the final state. -/
def HeadPoseMetric.runUpdates (m : HeadPoseMetric) :
    List HeadPoseInput → List HeadPoseMetricOutput × HeadPoseMetric
  | [] => ([], m)
  | i :: rest =>
    let om := m.update i
    let res := om.2.runUpdates rest
    (om.1 :: res.1, res.2)

/-- Number of valid-landmark frames in a head-pose input sequence. -/
def countValid (inputs : List HeadPoseInput) : ℕ :=
  inputs.countP HeadPoseInput.isAngles

/-- The head-pose detector has not finished calibrating: no baseline is set
and (as maintained by `update` throughout the calibration phase) every
per-axis alert latch is clear. -/
def HeadPoseMetric.CalibratingInv (m : HeadPoseMetric) : Prop :=
  m.baseline = none ∧ m.yaw_state = false ∧ m.pitch_state = false ∧
    m.roll_state = false

/-- `EyeClosureMetric.init (1/2) (1/2) 1 (1/15) 1 1`. -/
def eyeClosureExample : EyeClosureMetric :=
  { ear_threshold_open := 1/2
    ear_threshold_close := 1/4
    perclos_threshold := 1
    min_eye_closed_duration_frames := 1
    window_size := 15
    eye_closed_duration_frames := 0
    eye_closed := false
    eye_history := []
    ear_smoother := ScalarSmoother.init 1 3 }

/-- `EyeClosureMetric.init` at the source's default constructor arguments
(threshold 0.15, hysteresis ratio 0.9, PERCLOS 0.4, minimum closed duration
0.25 s, window 10 s, smoother alpha 0.6). -/
def eyeClosureDefaultCfg : EyeClosureMetric :=
  { ear_threshold_open := 3/20
    ear_threshold_close := 27/200
    perclos_threshold := 2/5
    min_eye_closed_duration_frames := 3
    window_size := 150
    eye_closed_duration_frames := 0
    eye_closed := false
    eye_history := []
    ear_smoother := ScalarSmoother.init (3/5) 3 }

/-- A sequence smoother whose stored vector is `[0, 0]` (the state reached
from a fresh `Smoother(alpha=1/2, max_missing=5)` after one update). -/
def smootherExample : Smoother :=
  { alpha := 1/2, maxMissing := 5, lastValue := some [0, 0], missingCount := 0 }

/-- `YawnMetric.init (1/2) 1 (1/100) (7/10)` (`yawn.py`): hysteresis ratio 1
is accepted by the constructor's validation and makes the close threshold
equal the open threshold. -/
def yawnExample : YawnMetric :=
  { mar_threshold_open := 1/2
    mar_threshold_close := 1/2
    min_yawn_duration_frames := 1
    frames_processed := 0
    yawn_duration_frames := 0
    yawn_active := false
    yawn_events := 0
    mar_smoother := ScalarSmoother.init (7/10) 3 }

/-- `HeadPoseMetric.init 45 20 25 (1/2) (1/15) 3`: a configuration whose
calibration phase is `calibration_sec * fps = 1` frame long. -/
def headPoseOneFrameCalib : HeadPoseMetric :=
  { yaw_threshold := 45
    pitch_threshold := 20
    roll_threshold := 25
    min_sustained_frames := 7
    calibration_frames := 1
    missing_reset_frames := 45
    yaw_counter := 0
    pitch_counter := 0
    roll_counter := 0
    yaw_state := false
    pitch_state := false
    roll_state := false
    baseline := none
    baseline_sum_yaw := 0
    baseline_sum_pitch := 0
    baseline_sum_roll := 0
    baseline_count := 0
    missing_frames := 0 }

/-- `HeadPoseMetric.init` at the source's default constructor arguments. -/
def headPoseDefaultCfg : HeadPoseMetric :=
  { yaw_threshold := 45
    pitch_threshold := 20
    roll_threshold := 25
    min_sustained_frames := 7
    calibration_frames := 15
    missing_reset_frames := 45
    yaw_counter := 0
    pitch_counter := 0
    roll_counter := 0
    yaw_state := false
    pitch_state := false
    roll_state := false
    baseline := none
    baseline_sum_yaw := 0
    baseline_sum_pitch := 0
    baseline_sum_roll := 0
    baseline_count := 0
    missing_frames := 0 }

/-- A frame context with no face and no detections. -/
def emptyFrameContext : FrameContext :=
  { face_landmarks := none, object_detections := [] }

/-- Three detectors: the first returns a one-key record, the second raises,
the third returns a one-key record. -/
def detectorsExample : List Detector :=
  [fun _ => .returns [("a", .vBool true)],
   fun _ => .raises,
   fun _ => .returns [("b", .vInt 1)]]

/-- A session state with a queued head-pose recalibration request. -/
def sessionExample : SessionProcessingState :=
  { manager :=
      { eye_closure := eyeClosureDefaultCfg
        head_pose :=
          { headPoseDefaultCfg with
            baseline := some (10, 5, 1)
            baseline_count := 15 }
        yawn := { open_counter := 2, yawn_active := false, smoother := Smoother.init (3/10) 5 } }
    smoother := Smoother.init (4/5) 5
    recalibrate_requested := true }

/-! ## Claim C1 -/

/-- Claim C1: for every detector, `reset()` followed by any update sequence
is claimed to match a freshly constructed instance fed the same sequence,
with `EyeClosureMetric.reset` clearing the eye-closed latch and its
consecutive-frame counter.  The code violates this: `EyeClosureMetric.reset`
clears only the EAR smoother and the PERCLOS history.  Concretely, after a
single frame with EAR 0 the latch is set; after `reset()` a frame with
missing landmarks still reports `eye_closed = true`, while a fresh instance
reports `false` on the same frame. -/
theorem eye_closure_reset_keeps_latch :
    EyeClosureMetric.init (1/2) (1/2) 1 (1/15) 1 1 = .ok eyeClosureExample ∧
    (((eyeClosureExample.update (.value 0)).2.reset.update .missing).1).eye_closed
      = true ∧
    ((eyeClosureExample.update .missing).1).eye_closed = false := by
  refine ⟨?_, ?_, ?_⟩
  · norm_num [EyeClosureMetric.init, eyeClosureExample, ScalarSmoother.init,
      ratToNatTrunc, targetFps]
    decide
  · norm_num [EyeClosureMetric.update, EyeClosureMetric.reset, eyeClosureExample,
      ScalarSmoother.init, ScalarSmoother.update, ScalarSmoother.reset,
      EyeClosureMetric.heldOutput, EyeClosureMetric.perclos,
      EyeClosureMetric.calcSustained, pushBounded]
  · norm_num [EyeClosureMetric.update, eyeClosureExample, EyeClosureMetric.heldOutput]

/-! ## Claim C9 -/

/-- Claim C9 as stated is false on the code: the source sets the open
threshold to the configured `ear_threshold` and the close threshold to
`ear_threshold * hysteresis_ratio`, not `close = ear_threshold` and
`open = ear_threshold / hysteresis_ratio`.  At the default configuration
(threshold 0.15, ratio 0.9) the close threshold is 0.135 and the open
threshold is 0.15 rather than 0.15 and 1/6. -/
theorem eye_closure_thresholds_claim_false :
    EyeClosureMetric.init (3/20) (9/10) (2/5) (1/4) 10 (3/5)
      = .ok eyeClosureDefaultCfg ∧
    eyeClosureDefaultCfg.ear_threshold_close ≠ 3/20 ∧
    eyeClosureDefaultCfg.ear_threshold_open ≠ (3/20) / (9/10) := by
  refine ⟨?_, ?_, ?_⟩
  · norm_num [EyeClosureMetric.init, eyeClosureDefaultCfg, ScalarSmoother.init,
      ratToNatTrunc, targetFps]
    decide
  · norm_num [eyeClosureDefaultCfg]
  · norm_num [eyeClosureDefaultCfg]

/-- Claim C9 (amended): in the Eye Closure detector the open threshold
equals the configured `ear_threshold` and the close threshold equals
`ear_threshold * hysteresis_ratio`, with close strictly below open for every
hysteresis ratio in (0, 1) when the threshold is positive. -/
theorem eye_closure_thresholds (t r p ms ws a : ℚ)
    (ht0 : 0 ≤ t) (ht1 : t ≤ 1) (hr0 : 0 ≤ r) (hr1 : r ≤ 1)
    (hp0 : 0 ≤ p) (hp1 : p ≤ 1) (hms : 0 < ms) (hws : 0 < ws) :
    ∃ m, EyeClosureMetric.init t r p ms ws a = .ok m ∧
      m.ear_threshold_open = t ∧ m.ear_threshold_close = t * r ∧
      (0 < t → r < 1 → m.ear_threshold_close < m.ear_threshold_open) := by
  have h1 : ¬(t < 0 ∨ t > 1) := by push_neg; exact ⟨ht0, ht1⟩
  have h2 : ¬(r < 0 ∨ r > 1) := by push_neg; exact ⟨hr0, hr1⟩
  have h3 : ¬(p < 0 ∨ p > 1) := by push_neg; exact ⟨hp0, hp1⟩
  have h4 : ¬(ms ≤ 0) := not_le.mpr hms
  have h5 : ¬(ws ≤ 0) := not_le.mpr hws
  refine ⟨{ ear_threshold_open := t
            ear_threshold_close := t * r
            perclos_threshold := p
            min_eye_closed_duration_frames := max 1 (ratToNatTrunc (ms * targetFps))
            window_size := max 1 (ratToNatTrunc (ws * targetFps))
            eye_closed_duration_frames := 0
            eye_closed := false
            eye_history := []
            ear_smoother := ScalarSmoother.init a 3 }, ?_, rfl, rfl, ?_⟩
  · unfold EyeClosureMetric.init
    rw [if_neg h1, if_neg h2, if_neg h3, if_neg h4, if_neg h5]
  · intro htpos hrlt
    show t * r < t
    exact mul_lt_of_lt_one_right htpos hrlt

/-- Witness for C9's amended theorem at the default configuration. -/
theorem eye_closure_thresholds_witness :
    ((0:ℚ) ≤ 3/20 ∧ (0:ℚ) < 1/4) ∧
    (∃ m, EyeClosureMetric.init (3/20) (9/10) (2/5) (1/4) 10 (3/5) = .ok m ∧
      m.ear_threshold_open = 3/20 ∧ m.ear_threshold_close = (3/20) * (9/10) ∧
      ((0:ℚ) < 3/20 → (9:ℚ)/10 < 1 →
        m.ear_threshold_close < m.ear_threshold_open)) :=
  ⟨⟨by norm_num, by norm_num⟩,
   eye_closure_thresholds (3/20) (9/10) (2/5) (1/4) 10 (3/5)
     (by norm_num) (by norm_num) (by norm_num) (by norm_num) (by norm_num)
     (by norm_num) (by norm_num) (by norm_num)⟩

/-! ## Claim C8 -/

/-- Claim C8 as stated is false on the code: a present vector whose length
differs from the stored one is not adopted as a fresh start.  With stored
vector `[0, 0]` and alpha 1/2, updating with `[2]` returns the element-wise
blend `[1]`, not `[2]`; and updating with the longer `[1, 2, 3]` raises
`IndexError` rather than succeeding. -/
theorem smoother_mismatch_claim_false :
    (Smoother.init (1/2) 5).update (some [0, 0])
      = .ok (some [0, 0], smootherExample) ∧
    smootherExample.update (some [2])
      = .ok (some [1], { smootherExample with lastValue := some [1] }) ∧
    (some [(1:ℚ)] ≠ some [(2:ℚ)]) ∧
    smootherExample.update (some [1, 2, 3]) = .error () := by
  refine ⟨?_, ?_, ?_, ?_⟩
  · norm_num [Smoother.update, Smoother.init, smootherExample]
  · norm_num [Smoother.update, smootherExample, List.range_succ]
  · norm_num
  · norm_num [Smoother.update, smootherExample]

/-- Claim C8 (amended): on a present input vector with a stored previous
vector, the sequence smoother blends element-wise over the input's indices —
an input at most as long as the stored vector is blended (not adopted
as-is), and an input longer than the stored vector fails with `IndexError`. -/
theorem smoother_mismatched_length_update (s : Smoother) (prev newList : List ℚ)
    (hprev : s.lastValue = some prev) :
    (newList.length ≤ prev.length →
      ∃ r, s.update (some newList)
          = .ok (some r, { s with missingCount := 0, lastValue := some r }) ∧
        r.length = newList.length ∧
        ∀ i, i < newList.length →
          r.getD i 0 = s.alpha * newList.getD i 0
            + (1 - s.alpha) * prev.getD i 0) ∧
    (prev.length < newList.length → s.update (some newList) = .error ()) := by
  constructor
  · intro hle
    refine ⟨(List.range newList.length).map fun i =>
        s.alpha * newList.getD i 0 + (1 - s.alpha) * prev.getD i 0, ?_, ?_, ?_⟩
    · simp [Smoother.update, hprev, hle]
    · simp
    · intro i hi
      simp [List.getD, List.getElem?_map, List.getElem?_range, hi]
  · intro hlt
    simp [Smoother.update, hprev, not_le.mpr hlt]

/-- Witness for C8's amended theorem: the stored vector `[0, 0]` blended
with the shorter input `[2]`, and the failing longer input `[1, 2, 3]`. -/
theorem smoother_mismatched_length_update_witness :
    smootherExample.lastValue = some [0, 0] ∧
    (([2] : List ℚ).length ≤ ([0, 0] : List ℚ).length ∧
      ∃ r, smootherExample.update (some [2])
          = .ok (some r,
              { smootherExample with missingCount := 0, lastValue := some r }) ∧
        r.length = ([2] : List ℚ).length ∧
        ∀ i, i < ([2] : List ℚ).length →
          r.getD i 0 = smootherExample.alpha * ([2] : List ℚ).getD i 0
            + (1 - smootherExample.alpha) * ([0, 0] : List ℚ).getD i 0) ∧
    (([0, 0] : List ℚ).length < ([1, 2, 3] : List ℚ).length ∧
      smootherExample.update (some [1, 2, 3]) = .error ()) :=
  ⟨rfl,
   ⟨by norm_num,
    (smoother_mismatched_length_update smootherExample [0, 0] [2] rfl).1
      (by norm_num)⟩,
   ⟨by norm_num,
    (smoother_mismatched_length_update smootherExample [0, 0] [1, 2, 3] rfl).2
      (by norm_num)⟩⟩

/-! ## Claim C7 -/

/-- Claim C7: consuming a queued head-pose recalibration request discards
the Head Pose baseline (so calibration restarts: baseline cleared, running
sums and count zeroed) and changes no state of any other detector or of the
landmark smoother; the request flag is consumed.  The manager-level
dispatcher is modelled from the spec (see
`MetricManagerState.reset_head_pose_baseline`). -/
theorem recalibration_clears_only_head_pose (s : SessionProcessingState)
    (h : s.recalibrate_requested = true) :
    ((consumeRecalibrationStep s).manager.head_pose.baseline = none ∧
      (consumeRecalibrationStep s).manager.head_pose.baseline_count = 0 ∧
      (consumeRecalibrationStep s).manager.head_pose.baseline_sum_yaw = 0 ∧
      (consumeRecalibrationStep s).manager.head_pose.baseline_sum_pitch = 0 ∧
      (consumeRecalibrationStep s).manager.head_pose.baseline_sum_roll = 0) ∧
    (consumeRecalibrationStep s).manager.eye_closure = s.manager.eye_closure ∧
    (consumeRecalibrationStep s).manager.yawn = s.manager.yawn ∧
    (consumeRecalibrationStep s).smoother = s.smoother ∧
    (consumeRecalibrationStep s).recalibrate_requested = false := by
  simp [consumeRecalibrationStep, h, MetricManagerState.reset_head_pose_baseline,
    HeadPoseMetric.reset_baseline, HeadPoseMetric.resetAlertState]

/-- Witness for C7 at a session with a calibrated head pose and a queued
request. -/
theorem recalibration_clears_only_head_pose_witness :
    sessionExample.recalibrate_requested = true ∧
    (((consumeRecalibrationStep sessionExample).manager.head_pose.baseline = none ∧
      (consumeRecalibrationStep sessionExample).manager.head_pose.baseline_count = 0 ∧
      (consumeRecalibrationStep sessionExample).manager.head_pose.baseline_sum_yaw = 0 ∧
      (consumeRecalibrationStep sessionExample).manager.head_pose.baseline_sum_pitch = 0 ∧
      (consumeRecalibrationStep sessionExample).manager.head_pose.baseline_sum_roll = 0) ∧
    (consumeRecalibrationStep sessionExample).manager.eye_closure
      = sessionExample.manager.eye_closure ∧
    (consumeRecalibrationStep sessionExample).manager.yawn
      = sessionExample.manager.yawn ∧
    (consumeRecalibrationStep sessionExample).smoother = sessionExample.smoother ∧
    (consumeRecalibrationStep sessionExample).recalibrate_requested = false) :=
  ⟨rfl, recalibration_clears_only_head_pose sessionExample rfl⟩

/-! ## Claim C10 -/

/-- Claim C10 as stated is false on the code at the boundary configuration
`hysteresis_ratio = 1` (accepted by the constructor), where the close
threshold equals the open threshold: with both thresholds 1/2 and a yawn
active, an update whose smoothed MAR is exactly 1/2 — at the close
threshold while a yawn is active — takes the mouth-open branch and does not
increment `yawn_count`. -/
theorem yawn_count_claim_false :
    YawnMetric.init (1/2) 1 (1/100) (7/10) = .ok yawnExample ∧
    ((yawnExample.update (.computed (some (1/2)))).2).yawn_active = true ∧
    (((yawnExample.update (.computed (some (1/2)))).2.update
        (.computed (some (1/2)))).1).mar = some (1/2) ∧
    ((1:ℚ)/2 ≤ yawnExample.mar_threshold_close) ∧
    (((yawnExample.update (.computed (some (1/2)))).2.update
        (.computed (some (1/2)))).2).yawn_events = 0 := by
  refine ⟨?_, ?_, ?_, ?_, ?_⟩
  · norm_num [YawnMetric.init, yawnExample, ScalarSmoother.init, ratToNatTrunc,
      targetFps]
  · norm_num [YawnMetric.update, yawnExample, ScalarSmoother.init,
      ScalarSmoother.update, YawnMetric.heldOutput, YawnMetric.calcSustained]
  · norm_num [YawnMetric.update, yawnExample, ScalarSmoother.init,
      ScalarSmoother.update, YawnMetric.heldOutput, YawnMetric.calcSustained]
  · norm_num [yawnExample]
  · norm_num [YawnMetric.update, yawnExample, ScalarSmoother.init,
      ScalarSmoother.update, YawnMetric.heldOutput, YawnMetric.calcSustained]

/-- Claim C10 (amended): across updates with no intervening reset,
`yawn_count` is nondecreasing and grows by at most 1 per update, and it
increments exactly on an update whose smoothed MAR is at or below the close
threshold and strictly below the open threshold while a yawn is currently
active. -/
theorem yawn_count_step (m : YawnMetric) (inp : MarInput) :
    m.yawn_events ≤ ((m.update inp).2).yawn_events ∧
    ((m.update inp).2).yawn_events ≤ m.yawn_events + 1 ∧
    (((m.update inp).2).yawn_events = m.yawn_events + 1 ↔
      m.yawn_active = true ∧
        ∃ v, ((m.update inp).1).mar = some v ∧
          v < m.mar_threshold_open ∧ v ≤ m.mar_threshold_close) := by
  cases inp with
  | missing => simp [YawnMetric.update, YawnMetric.heldOutput]
  | failed => simp [YawnMetric.update, YawnMetric.heldOutput]
  | computed raw =>
    simp only [YawnMetric.update]
    rcases hsm : m.mar_smoother.update raw with ⟨sm, s2⟩
    cases sm with
    | none =>
      dsimp only [YawnMetric.heldOutput]
      refine ⟨le_refl _, by omega, ?_⟩
      constructor
      · intro h; omega
      · rintro ⟨-, w, hw, -⟩
        exact Option.noConfusion hw
    | some v =>
      dsimp only
      by_cases hopen : m.mar_threshold_open ≤ v
      · rw [if_pos hopen]
        dsimp only
        split_ifs <;>
        · dsimp only
          refine ⟨le_refl _, by omega, ?_⟩
          simp only [Option.some.injEq]
          constructor
          · intro h; omega
          · rintro ⟨-, w, rfl, hw1, -⟩
            exact absurd hopen (not_le.mpr hw1)
      · rw [if_neg hopen]
        by_cases hclose : v ≤ m.mar_threshold_close
        · rw [if_pos hclose]
          dsimp only
          by_cases hact : m.yawn_active
          · rw [if_pos hact]
            split_ifs <;>
            · dsimp only
              refine ⟨by omega, by omega, ?_⟩
              simp only [Option.some.injEq]
              constructor
              · intro _
                exact ⟨hact, v, rfl, not_le.mp hopen, hclose⟩
              · intro _; trivial
          · rw [if_neg hact]
            split_ifs <;>
            · dsimp only
              refine ⟨le_refl _, by omega, ?_⟩
              simp only [Option.some.injEq]
              constructor
              · intro h; omega
              · rintro ⟨hact2, -⟩
                exact absurd hact2 hact
        · rw [if_neg hclose]
          dsimp only
          split_ifs <;>
          · dsimp only
            refine ⟨le_refl _, by omega, ?_⟩
            simp only [Option.some.injEq]
            constructor
            · intro h; omega
            · rintro ⟨-, w, rfl, -, hw2⟩
              exact absurd hw2 hclose

/-! ## Claim C5 -/

/-- Helper for C5: once some decoded frame's timestamp exceeds a truthy
(nonzero) duration limit and every earlier frame's processing succeeds, the
decode loop raises the duration `OverflowError` regardless of the loop
state it starts from. -/
theorem processFramesLoop_overflow (maxD tI : ℚ) (hmax : maxD ≠ 0)
    (f : DecodedFrame) (hf : maxD < f.timestamp_sec) :
    ∀ pre : List DecodedFrame, (∀ g ∈ pre, g.proc_fails = false) →
    ∀ post lastTs nextT fn,
      processFramesLoop maxD tI lastTs nextT fn (pre ++ f :: post)
        = .error () := by
  intro pre
  induction pre with
  | nil =>
    intro _ post lastTs nextT fn
    have hlt : maxD < max lastTs f.timestamp_sec :=
      lt_of_lt_of_le hf (le_max_right _ _)
    simp only [List.nil_append, processFramesLoop]
    rw [if_pos ⟨hmax, hlt⟩]
  | cons g pre ih =>
    intro hpre post lastTs nextT fn
    have hg : g.proc_fails = false := hpre g (List.mem_cons_self g pre)
    have hpre2 : ∀ x ∈ pre, x.proc_fails = false := fun x hx =>
      hpre x (List.mem_cons_of_mem g hx)
    simp only [List.cons_append, processFramesLoop]
    by_cases h1 : maxD ≠ 0 ∧ maxD < max lastTs g.timestamp_sec
    · rw [if_pos h1]
    · rw [if_neg h1]
      by_cases h2 : g.timestamp_sec + 1 / 1000000 < nextT
      · rw [if_pos h2]
        exact ih hpre2 post _ _ _
      · rw [if_neg h2, hg]
        simp only [Bool.false_eq_true, if_false]
        exact ih hpre2 post _ _ _

/-- Claim C5 (amended): `process_uploaded_video` raises the distinct
duration-exceeded error (`OverflowError`, the `Except.error` result, hence
no partial result) whenever the up-front container-metadata duration
(`frame_count / fps`, both positive) exceeds `max_duration_sec`, and — for a
nonzero `max_duration_sec` (the incremental guard `if max_duration_sec and
...` is skipped when the limit is falsy, i.e. 0) — whenever a decoded
frame's timestamp exceeds the limit and decoding reaches that frame (no
earlier frame aborted the loop with a generic exception); the error
propagates past the generic exception handler, which otherwise swallows
per-frame failures. -/
theorem process_uploaded_video_duration_error (src : VideoSource)
    (tf : ℤ) (maxD : ℚ) :
    (0 < src.source_frame_count → 0 < src.source_fps →
      maxD < src.source_frame_count / src.source_fps →
      process_uploaded_video src tf maxD = .error ()) ∧
    (maxD ≠ 0 → ∀ pre f post, src.frames = pre ++ f :: post →
      (∀ g ∈ pre, g.proc_fails = false) → maxD < f.timestamp_sec →
      process_uploaded_video src tf maxD = .error ()) := by
  constructor
  · intro hcount hfps hdur
    have hpos : 0 < src.source_frame_count / src.source_fps := div_pos hcount hfps
    unfold process_uploaded_video
    dsimp only
    split_ifs with hmeta hover
    · rfl
    · exact absurd ⟨ne_of_gt hpos, hdur⟩ hover
    all_goals exact absurd ⟨hcount, hfps⟩ hmeta
  · intro hmax pre f post hframes hpre hf
    unfold process_uploaded_video
    dsimp only
    split_ifs
    all_goals
      first
        | rfl
        | (rw [hframes]
           exact processFramesLoop_overflow maxD _ hmax f hf pre hpre post 0 0 0)

/-- Claim C5 as stated is false on the code at `max_duration_sec = 0`
(Python falsiness skips the incremental check): with no usable container
metadata and a single decoded frame at timestamp 1 — which exceeds the limit
0 — the run completes normally instead of raising the duration error. -/
theorem process_uploaded_video_zero_limit_no_error :
    process_uploaded_video ⟨0, 0, [⟨1, false⟩]⟩ 1 0 = .ok (1, 1) ∧
    ((0:ℚ) < 1) := by
  constructor
  · norm_num [process_uploaded_video, processFramesLoop]
  · norm_num

/-- Witness for C5's amended theorem: the metadata path at a 2-second source
against a 1-second limit, and the incremental path at a frame with timestamp
5 against a 2-second limit. -/
theorem process_uploaded_video_duration_error_witness :
    ((0:ℚ) < 2 ∧ (0:ℚ) < 1 ∧ (1:ℚ) < 2 / 1 ∧
      process_uploaded_video ⟨1, 2, []⟩ 1 1 = .error ()) ∧
    ((2:ℚ) ≠ 0 ∧ (2:ℚ) < 5 ∧
      process_uploaded_video ⟨0, 0, [⟨5, false⟩]⟩ 1 2 = .error ()) := by
  refine ⟨⟨by norm_num, by norm_num, by norm_num, ?_⟩,
          ⟨by norm_num, by norm_num, ?_⟩⟩
  · exact (process_uploaded_video_duration_error ⟨1, 2, []⟩ 1 1).1
      (by norm_num) (by norm_num) (by norm_num)
  · exact (process_uploaded_video_duration_error ⟨0, 0, [⟨5, false⟩]⟩ 1 2).2
      (by norm_num) [] ⟨5, false⟩ [] rfl (by simp) (by norm_num)

/-! ## Lemmas about the generic reduction's key loop -/

/-- A key that occurs in no element of a keyed `filterMap` looks up to
nothing. -/
theorem lookup_filterMap_keyed_not_mem {β : Type} (l : List String)
    (g : String → Option β) (key : String) (hmem : key ∉ l) :
    List.lookup key (l.filterMap fun k => (g k).map fun v => (k, v))
      = none := by
  induction l with
  | nil => rfl
  | cons k rest ih =>
    have hk : key ≠ k := fun h => hmem (h ▸ List.mem_cons_self k rest)
    have hrest : key ∉ rest := fun h => hmem (List.mem_cons_of_mem k h)
    rw [List.filterMap_cons]
    cases g k with
    | none =>
      simp only [Option.map_none']
      exact ih hrest
    | some v =>
      simp only [Option.map_some']
      rw [List.lookup_cons]
      simp only [beq_eq_false_iff_ne.mpr hk]
      exact ih hrest

/-- Looking up a key of a duplicate-free key list in the keyed `filterMap`
yields exactly the generator's value at that key. -/
theorem lookup_filterMap_keyed {β : Type} (l : List String)
    (g : String → Option β) (key : String) (hnd : l.Nodup) (hmem : key ∈ l) :
    List.lookup key (l.filterMap fun k => (g k).map fun v => (k, v))
      = g key := by
  induction l with
  | nil => cases hmem
  | cons k rest ih =>
    rw [List.filterMap_cons]
    by_cases hk : key = k
    · subst hk
      have hrest : key ∉ rest := (List.nodup_cons.mp hnd).1
      cases hg : g key with
      | none =>
        simp only [Option.map_none']
        exact lookup_filterMap_keyed_not_mem rest g key hrest
      | some v =>
        simp only [Option.map_some']
        rw [List.lookup_cons]
        simp
    · have hmem2 : key ∈ rest := (List.mem_cons.mp hmem).resolve_left hk
      have hnd2 : rest.Nodup := (List.nodup_cons.mp hnd).2
      cases g k with
      | none =>
        simp only [Option.map_none']
        exact ih hnd2 hmem2
      | some v =>
        simp only [Option.map_some']
        rw [List.lookup_cons]
        simp only [beq_eq_false_iff_ne.mpr hk]
        exact ih hnd2 hmem2

/-- A key with at least one present value occurs in the key union. -/
theorem mem_allKeys_of_present (objects : List MRecord) (key : String)
    (hne : presentValues objects key ≠ []) : key ∈ allKeys objects := by
  unfold presentValues at hne
  rw [Ne, List.filterMap_eq_nil_iff] at hne
  push_neg at hne
  obtain ⟨o, ho, hval⟩ := hne
  cases hl : o.lookup key with
  | none => rw [hl] at hval; exact absurd rfl hval
  | some v =>
    obtain ⟨l1, l2, hsplit, -⟩ := List.lookup_eq_some_iff.mp hl
    have hkeys : key ∈ o.map Prod.fst := by
      rw [hsplit]; simp
    unfold allKeys
    rw [List.mem_dedup, List.mem_flatten]
    exact ⟨o.map Prod.fst, List.mem_map_of_mem _ ho, hkeys⟩

/-- Looking up a key with present values in either reduction's key loop
yields the per-key rule applied to those values. -/
theorem aggregateLoop_lookup (reduceKey : String → List MValue → MValue)
    (objects : List MRecord) (key : String)
    (hne : presentValues objects key ≠ []) :
    List.lookup key (aggregateLoop reduceKey objects)
      = some (reduceKey key (presentValues objects key)) := by
  have hmem : key ∈ allKeys objects := mem_allKeys_of_present objects key hne
  have hnd : (allKeys objects).Nodup := List.nodup_dedup _
  have hbridge : aggregateLoop reduceKey objects
      = (allKeys objects).filterMap fun k =>
          (if (presentValues objects k).isEmpty then none
            else some (reduceKey k (presentValues objects k))).map
            fun v => (k, v) := by
    unfold aggregateLoop
    congr 1
    funext k
    by_cases h : (presentValues objects k).isEmpty <;> simp [h]
  rw [hbridge, lookup_filterMap_keyed _ _ _ hnd hmem,
    if_neg (by simpa [List.isEmpty_iff] using hne)]

/-- The last element of an all-false boolean list is false (default
included). -/
theorem getLastD_false_of_any_eq_false (l : List Bool) :
    ∀ d : Bool, d = false → l.any id = false → l.getLastD d = false := by
  induction l with
  | nil =>
    intro d hd _
    simpa using hd
  | cons b t ih =>
    intro d hd hany
    have hsplit : b = false ∧ t.any id = false := by
      simpa [Bool.or_eq_false_iff] using hany
    rw [List.getLastD_cons]
    exact ih b hsplit.1 hsplit.2

/-- `_aggregate_boolean` computes the boolean OR of its inputs. -/
theorem aggregateBoolean_eq_any (l : List Bool) :
    aggregateBoolean l = l.any id := by
  unfold aggregateBoolean
  by_cases h : l.any id
  · rw [if_pos h, h]
  · rw [if_neg h]
    have hfalse : l.any id = false := Bool.not_eq_true _ ▸ eq_false_of_ne_true h
    rw [hfalse, getLastD_false_of_any_eq_false l false rfl hfalse]

/-- A maximum of a nonempty integer list: the fold both belongs to the list
and bounds every element. -/
theorem foldl_max_spec (l : List ℤ) (a : ℤ) :
    (l.foldl max a = a ∨ l.foldl max a ∈ l) ∧ a ≤ l.foldl max a ∧
      ∀ n ∈ l, n ≤ l.foldl max a := by
  induction l generalizing a with
  | nil => exact ⟨Or.inl rfl, le_refl a, by simp⟩
  | cons b t ih =>
    obtain ⟨hmem, hle, hbound⟩ := ih (max a b)
    refine ⟨?_, le_trans (le_max_left a b) hle, ?_⟩
    · rcases hmem with h | h
      · rcases max_choice a b with hab | hab
        · exact Or.inl (by rw [List.foldl_cons, h, hab])
        · exact Or.inr (by rw [List.foldl_cons, h, hab]; exact List.mem_cons_self b t)
      · exact Or.inr (List.mem_cons_of_mem b h)
    · intro n hn
      rcases List.mem_cons.mp hn with rfl | hn
      · exact le_trans (le_max_right a n) hle
      · exact hbound n hn

/-- An integer value is numeric. -/
theorem isNumeric_of_isInt (v : MValue) (h : isInt v = true) :
    isNumeric v = true := by
  cases v <;> simp_all [isInt, isNumeric]

/-- A nonempty all-integer value list has a nonempty integer payload list. -/
theorem intValues_ne_nil (values : List MValue) (hne : values ≠ [])
    (hint : values.all isInt = true) : intValues values ≠ [] := by
  cases values with
  | nil => exact absurd rfl hne
  | cons v rest =>
    have hv : isInt v = true := by
      rw [List.all_eq_true] at hint
      exact hint v (List.mem_cons_self v rest)
    cases v <;> simp_all [isInt, intValues]

/-- The maximum computed by `intListMax` belongs to a nonempty list and
bounds all of its elements. -/
theorem intListMax_spec (l : List ℤ) (hne : l ≠ []) :
    intListMax l ∈ l ∧ ∀ n ∈ l, n ≤ intListMax l := by
  cases l with
  | nil => exact absurd rfl hne
  | cons a t =>
    simp only [intListMax]
    obtain ⟨hmem, hle, hbound⟩ := foldl_max_spec t a
    refine ⟨?_, ?_⟩
    · rcases hmem with h | h
      · rw [h]; exact List.mem_cons_self a t
      · exact List.mem_cons_of_mem a h
    · intro n hn
      rcases List.mem_cons.mp hn with rfl | hn
      · exact hle
      · exact hbound n hn

/-- Both per-key rule chains reduce an alert-suffixed key to OR-of-booleans
with fallback to the last value, before any type-based rule is consulted. -/
theorem reduceKey_alert_eq (recur : List MRecord → MRecord) (key : String)
    (values : List MValue) (halert : endsWithAlertSuffix key = true) :
    reduceKeyUpload recur key values
      = (if boolValues values = [] then lastValue values
         else .vBool ((boolValues values).any id)) ∧
    reduceKeyAgg recur key values
      = (if boolValues values = [] then lastValue values
         else .vBool ((boolValues values).any id)) := by
  constructor
  · unfold reduceKeyUpload
    rw [if_pos halert]
    dsimp only
    by_cases hb : boolValues values = []
    · rw [if_pos ((List.isEmpty_iff).mpr hb), if_pos hb]
    · rw [if_neg (by simpa [List.isEmpty_iff] using hb), if_neg hb,
        aggregateBoolean_eq_any]
  · unfold reduceKeyAgg
    rw [if_pos halert]
    dsimp only
    by_cases hb : boolValues values = []
    · rw [if_pos ((List.isEmpty_iff).mpr hb), if_pos hb]
    · rw [if_neg (by simpa [List.isEmpty_iff] using hb), if_neg hb,
        aggregateBoolean_eq_any]

/-! ## Claim C2 -/

/-- Claim C2 as stated is false on the code: the reduction invoked by the
batch video processor (`video_upload_processor._aggregate_metrics_object`)
has no all-integers rule, so the all-integer records `[(n, 2)], [(n, 4)]`
reduce to the arithmetic mean `3.0` there, not the maximum `4`; the
`video_aggregation.py` copy does take the maximum. -/
theorem aggregate_int_mean_claim_false :
    aggregateMetricsObjectUploadF 1 [[("n", .vInt 2)], [("n", .vInt 4)]]
      = [("n", .vFloat 3)] ∧
    aggregateMetricsObjectAggF 1 [[("n", .vInt 2)], [("n", .vInt 4)]]
      = [("n", .vInt 4)] ∧
    (MValue.vFloat 3 ≠ MValue.vInt 4) := by
  refine ⟨?_, ?_, by simp⟩
  · norm_num [aggregateMetricsObjectUploadF, aggregateLoop, allKeys,
      presentValues, reduceKeyUpload, numericMean, endsWithAlertSuffix,
      MValue.isNull, isNumeric, MValue.toQ, List.lookup, List.dedup,
      List.filterMap_cons]
    intro h
    exact absurd h (by decide)
  · norm_num [aggregateMetricsObjectAggF, aggregateLoop, allKeys,
      presentValues, reduceKeyAgg, intListMax, intValues, endsWithAlertSuffix,
      MValue.isNull, isInt, List.lookup, List.dedup, List.filterMap_cons]
    intro h
    exact absurd h (by decide)

/-- Claim C2 (amended): for a key that does not end in the alert suffix and
whose present values are all integers (booleans excluded),
`video_aggregation._aggregate_metrics_object` reduces to the maximum of the
values, while the reduction actually invoked by the batch video processor —
`video_upload_processor`'s own copy, which lacks the integer rule — reduces
to their arithmetic mean. -/
theorem aggregate_int_values_rule (objects : List MRecord) (key : String)
    (fuel : ℕ) (halert : endsWithAlertSuffix key = false)
    (hne : presentValues objects key ≠ [])
    (hint : (presentValues objects key).all isInt = true) :
    (∃ mx : ℤ, List.lookup key (aggregateMetricsObjectAggF (fuel + 1) objects)
        = some (.vInt mx) ∧
      mx ∈ intValues (presentValues objects key) ∧
      ∀ n ∈ intValues (presentValues objects key), n ≤ mx) ∧
    List.lookup key (aggregateMetricsObjectUploadF (fuel + 1) objects)
      = some (.vFloat (numericMean (presentValues objects key))) := by
  have hnum : (presentValues objects key).all isNumeric = true := by
    rw [List.all_eq_true] at hint ⊢
    exact fun v hv => isNumeric_of_isInt v (hint v hv)
  constructor
  · rw [show aggregateMetricsObjectAggF (fuel + 1) objects
        = aggregateLoop (reduceKeyAgg (aggregateMetricsObjectAggF fuel))
            objects from rfl,
      aggregateLoop_lookup _ objects key hne]
    unfold reduceKeyAgg
    rw [if_neg (by simp [halert]), if_pos hint]
    obtain ⟨hmem, hbound⟩ := intListMax_spec _ (intValues_ne_nil _ hne hint)
    exact ⟨_, rfl, hmem, hbound⟩
  · rw [show aggregateMetricsObjectUploadF (fuel + 1) objects
        = aggregateLoop (reduceKeyUpload (aggregateMetricsObjectUploadF fuel))
            objects from rfl,
      aggregateLoop_lookup _ objects key hne]
    unfold reduceKeyUpload
    rw [if_neg (by simp [halert]), if_pos hnum]

/-- Witness for C2's amended theorem at the records `[(n, 2)], [(n, 4)]`. -/
theorem aggregate_int_values_rule_witness :
    endsWithAlertSuffix "n" = false ∧
    presentValues [[("n", .vInt 2)], [("n", .vInt 4)]] "n" ≠ [] ∧
    ((∃ mx : ℤ, List.lookup "n"
          (aggregateMetricsObjectAggF 1 [[("n", .vInt 2)], [("n", .vInt 4)]])
        = some (.vInt mx) ∧
      mx ∈ intValues (presentValues [[("n", .vInt 2)], [("n", .vInt 4)]] "n") ∧
      ∀ n ∈ intValues (presentValues [[("n", .vInt 2)], [("n", .vInt 4)]] "n"),
        n ≤ mx) ∧
    List.lookup "n"
        (aggregateMetricsObjectUploadF 1 [[("n", .vInt 2)], [("n", .vInt 4)]])
      = some (.vFloat
          (numericMean (presentValues [[("n", .vInt 2)], [("n", .vInt 4)]] "n")))) := by
  have h1 : endsWithAlertSuffix "n" = false := by decide
  have h2 : presentValues [[("n", .vInt 2)], [("n", .vInt 4)]] "n" ≠ [] := by
    rw [show presentValues [[("n", .vInt 2)], [("n", .vInt 4)]] "n"
      = [.vInt 2, .vInt 4] from rfl]
    simp
  have h3 : (presentValues [[("n", .vInt 2)], [("n", .vInt 4)]] "n").all isInt
      = true := rfl
  exact ⟨h1, h2, aggregate_int_values_rule _ "n" 0 h1 h2 h3⟩

/-! ## Claim C4 -/

/-- Claim C4: in both copies of the generic reduction, a key ending in the
alert suffix reduces — before the all-boolean and numeric rules, hence
regardless of the values' types — to the boolean OR of its present boolean
values when at least one is boolean, and to the last present value in frame
order otherwise. -/
theorem aggregate_alert_rule (objects : List MRecord) (key : String)
    (fuel : ℕ) (halert : endsWithAlertSuffix key = true)
    (hne : presentValues objects key ≠ []) :
    (boolValues (presentValues objects key) ≠ [] →
      List.lookup key (aggregateMetricsObjectUploadF (fuel + 1) objects)
        = some (.vBool ((boolValues (presentValues objects key)).any id)) ∧
      List.lookup key (aggregateMetricsObjectAggF (fuel + 1) objects)
        = some (.vBool ((boolValues (presentValues objects key)).any id))) ∧
    (boolValues (presentValues objects key) = [] →
      List.lookup key (aggregateMetricsObjectUploadF (fuel + 1) objects)
        = some (lastValue (presentValues objects key)) ∧
      List.lookup key (aggregateMetricsObjectAggF (fuel + 1) objects)
        = some (lastValue (presentValues objects key))) := by
  have hup : List.lookup key (aggregateMetricsObjectUploadF (fuel + 1) objects)
      = some (reduceKeyUpload (aggregateMetricsObjectUploadF fuel) key
          (presentValues objects key)) := by
    rw [show aggregateMetricsObjectUploadF (fuel + 1) objects
        = aggregateLoop (reduceKeyUpload (aggregateMetricsObjectUploadF fuel))
            objects from rfl]
    exact aggregateLoop_lookup _ objects key hne
  have hag : List.lookup key (aggregateMetricsObjectAggF (fuel + 1) objects)
      = some (reduceKeyAgg (aggregateMetricsObjectAggF fuel) key
          (presentValues objects key)) := by
    rw [show aggregateMetricsObjectAggF (fuel + 1) objects
        = aggregateLoop (reduceKeyAgg (aggregateMetricsObjectAggF fuel))
            objects from rfl]
    exact aggregateLoop_lookup _ objects key hne
  obtain ⟨hredUp, hredAg⟩ :=
    reduceKey_alert_eq (aggregateMetricsObjectUploadF fuel) key
      (presentValues objects key) halert
  obtain ⟨hredUp2, hredAg2⟩ :=
    reduceKey_alert_eq (aggregateMetricsObjectAggF fuel) key
      (presentValues objects key) halert
  constructor
  · intro hb
    rw [hup, hag, hredUp, hredAg2, if_neg hb]
    exact ⟨rfl, rfl⟩
  · intro hb
    rw [hup, hag, hredUp, hredAg2, if_pos hb]
    exact ⟨rfl, rfl⟩

/-- Witness for C4 at the records `[(x_alert, true)], [(x_alert, false)]`,
reducing to `true`. -/
theorem aggregate_alert_rule_witness :
    endsWithAlertSuffix "x_alert" = true ∧
    presentValues [[("x_alert", .vBool true)], [("x_alert", .vBool false)]]
      "x_alert" ≠ [] ∧
    boolValues (presentValues
      [[("x_alert", .vBool true)], [("x_alert", .vBool false)]] "x_alert")
      ≠ [] ∧
    (List.lookup "x_alert" (aggregateMetricsObjectUploadF 1
        [[("x_alert", .vBool true)], [("x_alert", .vBool false)]])
      = some (.vBool ((boolValues (presentValues
          [[("x_alert", .vBool true)], [("x_alert", .vBool false)]]
          "x_alert")).any id)) ∧
    List.lookup "x_alert" (aggregateMetricsObjectAggF 1
        [[("x_alert", .vBool true)], [("x_alert", .vBool false)]])
      = some (.vBool ((boolValues (presentValues
          [[("x_alert", .vBool true)], [("x_alert", .vBool false)]]
          "x_alert")).any id))) := by
  have h1 : endsWithAlertSuffix "x_alert" = true := by decide
  have h2 : presentValues
      [[("x_alert", .vBool true)], [("x_alert", .vBool false)]] "x_alert"
      ≠ [] := by
    rw [show presentValues
        [[("x_alert", .vBool true)], [("x_alert", .vBool false)]] "x_alert"
      = [.vBool true, .vBool false] from rfl]
    simp
  have h3 : boolValues (presentValues
      [[("x_alert", .vBool true)], [("x_alert", .vBool false)]] "x_alert")
      ≠ [] := by
    rw [show boolValues (presentValues
        [[("x_alert", .vBool true)], [("x_alert", .vBool false)]] "x_alert")
      = [true, false] from rfl]
    simp
  exact ⟨h1, h2, h3,
    (aggregate_alert_rule
      [[("x_alert", .vBool true)], [("x_alert", .vBool false)]]
      "x_alert" 0 h1 h2).1 h3⟩

/-! ## Claim C6 -/

/-- The orchestrator's fold over detectors, from any accumulated results,
equals folding the plain `dict.update` over just the non-raising detectors'
outputs. -/
theorem metricManager_update_go (detectors : List Detector)
    (ctx : FrameContext) (acc : MRecord) :
    detectors.foldl
      (fun results d =>
        match d ctx with
        | .raises => results
        | .returns r => if r.isEmpty then results else dictUpdate results r)
      acc
    = (nonRaisingOutputs detectors ctx).foldl dictUpdate acc := by
  induction detectors generalizing acc with
  | nil => rfl
  | cons d rest ih =>
    simp only [List.foldl_cons, nonRaisingOutputs, List.filterMap_cons]
    cases hd : d ctx with
    | raises =>
      simp only []
      exact ih acc
    | returns r =>
      simp only [Option.map_some']
      by_cases hr : r.isEmpty
      · rw [if_pos hr]
        have hr2 : r = [] := (List.isEmpty_iff).mp hr
        subst hr2
        exact ih acc
      · rw [if_neg hr]
        exact ih (dictUpdate acc r)

/-- `dict` assignment at a key different from the looked-up one preserves an
absent lookup. -/
theorem lookup_dictSet_none (d : MRecord) (k key : String) (v : MValue)
    (hne : k ≠ key) (h : d.lookup key = none) :
    (dictSet d k v).lookup key = none := by
  rw [List.lookup_eq_none_iff] at h ⊢
  intro p hp
  unfold dictSet at hp
  by_cases hs : (d.lookup k).isSome
  · rw [if_pos hs] at hp
    obtain ⟨kv, hkv, hmap⟩ := List.mem_map.mp hp
    subst hmap
    by_cases hfst : kv.1 = k
    · rw [if_pos hfst]
      simpa using fun hcontra => hne hcontra.symm
    · rw [if_neg hfst]
      exact h kv hkv
  · rw [if_neg hs] at hp
    rcases List.mem_append.mp hp with hp2 | hp2
    · exact h p hp2
    · have hpk : p = (k, v) := by simpa using hp2
      subst hpk
      simpa using fun hcontra => hne hcontra.symm

/-- `dict.update` with a record not containing a key preserves an absent
lookup of that key. -/
theorem lookup_dictUpdate_none (res : MRecord) : ∀ d : MRecord,
    ∀ key : String, d.lookup key = none → res.lookup key = none →
    (dictUpdate d res).lookup key = none := by
  induction res with
  | nil => intro d key hd _; exact hd
  | cons kv rest ih =>
    intro d key hd hres
    rw [List.lookup_cons] at hres
    cases hkk : (key == kv.1) with
    | true =>
      rw [hkk] at hres
      simp at hres
    | false =>
      rw [hkk] at hres
      dsimp only at hres
      have hne : kv.1 ≠ key := fun h => by simp [h] at hkk
      unfold dictUpdate
      rw [List.foldl_cons]
      exact ih (dictSet d kv.1 kv.2) key
        (lookup_dictSet_none d kv.1 key kv.2 hne hd) hres

/-- Folding `dict.update` over records none of which contains a key yields
an absent lookup of that key. -/
theorem lookup_foldl_dictUpdate_none (records : List MRecord) :
    ∀ acc : MRecord, ∀ key : String, acc.lookup key = none →
    (∀ r ∈ records, r.lookup key = none) →
    (records.foldl dictUpdate acc).lookup key = none := by
  induction records with
  | nil => intro acc key hacc _; exact hacc
  | cons r rest ih =>
    intro acc key hacc h
    rw [List.foldl_cons]
    exact ih (dictUpdate acc r) key
      (lookup_dictUpdate_none r acc key hacc (h r (List.mem_cons_self r rest)))
      fun x hx => h x (List.mem_cons_of_mem r hx)

/-- Claim C6: for every frame context and detector list,
`MetricManager.update` equals the merged union of the non-raising detectors'
outputs — every remaining detector still contributes after one raises, no
exception escapes (the function is total), and a key carried by no
non-raising detector is absent from the result. -/
theorem metric_manager_update_isolates (detectors : List Detector)
    (ctx : FrameContext) :
    MetricManager.update detectors ctx
      = mergedUnion (nonRaisingOutputs detectors ctx) ∧
    ∀ key : String,
      (∀ r ∈ nonRaisingOutputs detectors ctx, r.lookup key = none) →
      (MetricManager.update detectors ctx).lookup key = none := by
  have h1 : MetricManager.update detectors ctx
      = mergedUnion (nonRaisingOutputs detectors ctx) :=
    metricManager_update_go detectors ctx []
  refine ⟨h1, fun key hk => ?_⟩
  rw [h1]
  exact lookup_foldl_dictUpdate_none _ [] key rfl hk

/-- Witness for C6: with a raising detector between two returning ones, the
key `c` owned by no detector is absent from the merged result. -/
theorem metric_manager_update_isolates_witness :
    (∀ r ∈ nonRaisingOutputs detectorsExample emptyFrameContext,
      r.lookup "c" = none) ∧
    (MetricManager.update detectorsExample emptyFrameContext).lookup "c"
      = none := by
  have hk : ∀ r ∈ nonRaisingOutputs detectorsExample emptyFrameContext,
      r.lookup "c" = none := by
    intro r hr
    rw [show nonRaisingOutputs detectorsExample emptyFrameContext
      = [[("a", .vBool true)], [("b", .vInt 1)]] from rfl] at hr
    rcases List.mem_cons.mp hr with rfl | hr2
    · rfl
    · rcases List.mem_cons.mp hr2 with rfl | hr3
      · rfl
      · cases hr3
  exact ⟨hk,
    (metric_manager_update_isolates detectorsExample emptyFrameContext).2
      "c" hk⟩

/-! ## Claim C3 -/

/-- One step of `HeadPoseMetric.update` during the calibration phase: while
fewer than `calibration_frames` valid frames have been absorbed, the
baseline stays unset, the alert latches stay clear, the configuration is
untouched, the absorbed-frame count grows by at most the step's valid-frame
count, and the emitted output reports `calibrating = true` with no alert. -/
theorem headPose_calib_step (m : HeadPoseMetric) (i : HeadPoseInput)
    (hInv : m.CalibratingInv)
    (hcnt : m.baseline_count + (if i.isAngles then 1 else 0)
      < m.calibration_frames) :
    ((m.update i).2).CalibratingInv ∧
    ((m.update i).2).calibration_frames = m.calibration_frames ∧
    ((m.update i).2).baseline_count
      ≤ m.baseline_count + (if i.isAngles then 1 else 0) ∧
    ((m.update i).1).calibrating = true ∧
    ((m.update i).1).yaw_alert = false ∧
    ((m.update i).1).pitch_alert = false ∧
    ((m.update i).1).roll_alert = false := by
  obtain ⟨hb, hy, hp, hr⟩ := hInv
  cases i with
  | missing =>
    unfold HeadPoseMetric.update
    dsimp only
    by_cases hm : m.missing_reset_frames ≤ m.missing_frames + 1
    · rw [if_pos hm]
      simp [HeadPoseMetric.reset_baseline, HeadPoseMetric.resetAlertState,
        HeadPoseMetric.buildOutput, HeadPoseMetric.CalibratingInv,
        HeadPoseInput.isAngles]
    · rw [if_neg hm]
      simp [HeadPoseMetric.buildOutput, HeadPoseMetric.CalibratingInv,
        HeadPoseInput.isAngles, hb, hy, hp, hr]
  | failed =>
    unfold HeadPoseMetric.update
    dsimp only
    simp [HeadPoseMetric.buildOutput, HeadPoseMetric.CalibratingInv,
      HeadPoseInput.isAngles, hb, hy, hp, hr]
  | angles y2 p2 r2 =>
    have hlt : m.baseline_count + 1 < m.calibration_frames := by
      simpa [HeadPoseInput.isAngles] using hcnt
    unfold HeadPoseMetric.update
    dsimp only
    rw [hb]
    dsimp only
    rw [if_pos hlt]
    simp [HeadPoseMetric.resetAlertState, HeadPoseMetric.buildOutput,
      HeadPoseMetric.CalibratingInv, HeadPoseInput.isAngles]

/-- Running the head-pose detector from a calibrating state over any input
sequence holding fewer valid frames than the calibration length: every
output reports `calibrating = true` and no alert. -/
theorem headPose_calibrating_run (inputs : List HeadPoseInput) :
    ∀ m : HeadPoseMetric, m.CalibratingInv →
    m.baseline_count + countValid inputs < m.calibration_frames →
    ∀ o ∈ (m.runUpdates inputs).1,
      o.calibrating = true ∧ o.yaw_alert = false ∧ o.pitch_alert = false ∧
        o.roll_alert = false := by
  induction inputs with
  | nil =>
    intro m _ _ o ho
    cases ho
  | cons i rest ih =>
    intro m hInv hcnt o ho
    have hstep : m.baseline_count + (if i.isAngles then 1 else 0)
        < m.calibration_frames := by
      rw [countValid, List.countP_cons] at hcnt
      rw [countValid] at *
      omega
    obtain ⟨hInv2, hcf, hbc, hcal, hy, hp, hr⟩ :=
      headPose_calib_step m i hInv hstep
    rw [show m.runUpdates (i :: rest)
      = ((m.update i).1 :: ((m.update i).2.runUpdates rest).1,
         ((m.update i).2.runUpdates rest).2) from rfl] at ho
    rcases List.mem_cons.mp ho with rfl | ho2
    · exact ⟨hcal, hy, hp, hr⟩
    · refine ih (m.update i).2 hInv2 ?_ o ho2
      rw [hcf]
      rw [countValid, List.countP_cons] at hcnt
      rw [countValid] at *
      omega

/-- Claim C3 (amended): (1) while a run from a calibrating state has seen
fewer than `calibration_frames` valid-landmark updates, every output —
regardless of the raw angle magnitudes — reports `calibrating = true` and no
alert; (2) the valid update that brings the absorbed count to
`calibration_frames` completes calibration and reports
`calibrating = false` (so the claim's "each of the first
`calibration_sec * fps` updates reports calibrating" fails at exactly that
update); (3) after calibration, an update whose raw angles equal the
baseline yields relative angles of 0 and no alert. -/
theorem head_pose_calibration_phase :
    (∀ (m : HeadPoseMetric) (inputs : List HeadPoseInput), m.CalibratingInv →
      m.baseline_count + countValid inputs < m.calibration_frames →
      ∀ o ∈ (m.runUpdates inputs).1,
        o.calibrating = true ∧ o.yaw_alert = false ∧ o.pitch_alert = false ∧
          o.roll_alert = false) ∧
    (∀ (m : HeadPoseMetric) (y2 p2 r2 : ℚ), m.baseline = none →
      m.calibration_frames ≤ m.baseline_count + 1 →
      ((m.update (.angles y2 p2 r2)).1).calibrating = false) ∧
    (∀ (m : HeadPoseMetric) (b1 b2 b3 : ℚ), m.baseline = some (b1, b2, b3) →
      0 ≤ m.yaw_threshold → 0 ≤ m.pitch_threshold → 0 ≤ m.roll_threshold →
      ((m.update (.angles b1 b2 b3)).1).yaw_rel = some 0 ∧
      ((m.update (.angles b1 b2 b3)).1).pitch_rel = some 0 ∧
      ((m.update (.angles b1 b2 b3)).1).roll_rel = some 0 ∧
      ((m.update (.angles b1 b2 b3)).1).yaw_alert = false ∧
      ((m.update (.angles b1 b2 b3)).1).pitch_alert = false ∧
      ((m.update (.angles b1 b2 b3)).1).roll_alert = false) := by
  refine ⟨fun m inputs hInv hcnt => headPose_calibrating_run inputs m hInv hcnt,
    ?_, ?_⟩
  · intro m y2 p2 r2 hbase hge
    unfold HeadPoseMetric.update
    dsimp only
    rw [hbase]
    dsimp only
    rw [if_neg (by omega)]
    rfl
  · intro m b1 b2 b3 hbase hy hp hr
    have hy2 : ¬(m.yaw_threshold < 0) := not_lt.mpr hy
    have hp2 : ¬(m.pitch_threshold < 0) := not_lt.mpr hp
    have hr2 : ¬(m.roll_threshold < 0) := not_lt.mpr hr
    unfold HeadPoseMetric.update
    dsimp only
    rw [hbase]
    dsimp only
    simp [HeadPoseMetric.afterCalibration, HeadPoseMetric.buildOutput,
      sub_self, abs_zero, hy2, hp2, hr2]

/-- Claim C3 as stated is false on the code: with
`calibration_sec * fps = 1` the very first valid update completes
calibration and reports `calibrating = false`, not `true`. -/
theorem head_pose_first_valid_frame_claim_false :
    HeadPoseMetric.init 45 20 25 (1/2) (1/15) 3 = .ok headPoseOneFrameCalib ∧
    headPoseOneFrameCalib.calibration_frames = 1 ∧
    ((headPoseOneFrameCalib.update (.angles 0 0 0)).1).calibrating = false := by
  refine ⟨?_, rfl, ?_⟩
  · norm_num [HeadPoseMetric.init, headPoseOneFrameCalib, ratToNatTrunc,
      targetFps]
    decide
  · norm_num [HeadPoseMetric.update, headPoseOneFrameCalib,
      HeadPoseMetric.afterCalibration, HeadPoseMetric.buildOutput]

/-- Witness for C3's amended theorem: a default-configuration run over one
enormous-angle frame during calibration, the one-frame-calibration instance
completing on its first valid frame, and a calibrated instance fed its own
baseline. -/
theorem head_pose_calibration_phase_witness :
    (headPoseDefaultCfg.CalibratingInv ∧
      headPoseDefaultCfg.baseline_count
          + countValid [.angles 100 100 100]
        < headPoseDefaultCfg.calibration_frames ∧
      ∀ o ∈ (headPoseDefaultCfg.runUpdates [.angles 100 100 100]).1,
        o.calibrating = true ∧ o.yaw_alert = false ∧ o.pitch_alert = false ∧
          o.roll_alert = false) ∧
    (headPoseOneFrameCalib.baseline = none ∧
      headPoseOneFrameCalib.calibration_frames
        ≤ headPoseOneFrameCalib.baseline_count + 1 ∧
      ((headPoseOneFrameCalib.update (.angles 7 7 7)).1).calibrating = false) ∧
    (sessionExample.manager.head_pose.baseline = some (10, 5, 1) ∧
      ((sessionExample.manager.head_pose.update (.angles 10 5 1)).1).yaw_rel
        = some 0 ∧
      ((sessionExample.manager.head_pose.update (.angles 10 5 1)).1).yaw_alert
        = false) := by
  have hInv : headPoseDefaultCfg.CalibratingInv := ⟨rfl, rfl, rfl, rfl⟩
  have hcnt : headPoseDefaultCfg.baseline_count
      + countValid [.angles 100 100 100]
      < headPoseDefaultCfg.calibration_frames := by decide
  have hb2 : headPoseOneFrameCalib.baseline = none := rfl
  have hge : headPoseOneFrameCalib.calibration_frames
      ≤ headPoseOneFrameCalib.baseline_count + 1 := by decide
  have hb3 : sessionExample.manager.head_pose.baseline = some (10, 5, 1) := rfl
  have hpart3 := head_pose_calibration_phase.2.2
    sessionExample.manager.head_pose 10 5 1 hb3
    (by norm_num [sessionExample, headPoseDefaultCfg])
    (by norm_num [sessionExample, headPoseDefaultCfg])
    (by norm_num [sessionExample, headPoseDefaultCfg])
  exact ⟨⟨hInv, hcnt,
      head_pose_calibration_phase.1 headPoseDefaultCfg [.angles 100 100 100]
        hInv hcnt⟩,
    ⟨hb2, hge,
      head_pose_calibration_phase.2.1 headPoseOneFrameCalib 7 7 7 hb2 hge⟩,
    ⟨hb3, hpart3.1, hpart3.2.2.2.1⟩⟩

end Manobela
